import Mathlib

/-!
# ThermostatAlert (P11.c): the measurement-to-alert control loop

A shallow embedding of the control loop of `src/P11.c`: touch target selection
(`DetectTarget`, `BoundsDetect`), the rotary pulse generator decoder (`RPG`), the
threshold editor (`SelectBound`), the sensor readers (`ReadHumidity`, `ReadTemp`,
`DewPoint`) and the alert engine (`CheckAlerts`).

Conventions of the embedding.

* The global variables and the function-local `static` variables of the C file are the
  fields of `State`; every C function is a function `State → State`, its hardware
  inputs (port bits, sensor words, touch sample) being explicit arguments.
* `int` is 16 bits on the PIC24 target: every `int` result that can leave the range is
  reduced with `wrap16`. Plain `char` is signed and 8 bits wide: every store of an `int`
  expression into a `char` is reduced with `toChar`.
* `float` values are rationals and float operations are exact; `(int) f` is `truncQ`.
  The library function `log` is a parameter `ln : ℚ → ℚ` of the functions that use it.
  A division by zero follows the convention `x / 0 = 0` of `ℚ`.
* `Display`, `DrawRectangle` and the three sensor bus calls are recorded, in call order,
  in the output trace `State.out`.
* One-bit registers (`_RB0`, `_LATD0`) and the four alert flags of `CheckAlerts`, which
  are function-local and only ever assigned `0` or `1`, are booleans.
-/

namespace ThermostatAlert

/-! ## Machine arithmetic -/

/-- Reduction of an integer to the 16-bit two's complement range of `int`. -/
def wrap16 (z : Int) : Int := (z + 32768) % 65536 - 32768

/-- Reduction of an integer to the signed 8-bit range of `char`. -/
def toChar (z : Int) : Int := (z + 128) % 256 - 128

/-- C integer division, truncating toward zero. -/
def cdiv (a b : Int) : Int := Int.tdiv a b

/-- C remainder, with the sign of the dividend. -/
def cmod (a b : Int) : Int := Int.tmod a b

/-- Conversion `(int) f` of a float: the fractional part is discarded, then the value
is brought into the range of `int`. -/
def truncQ (q : ℚ) : Int := wrap16 (if 0 ≤ q then Int.floor q else Int.ceil q)

/-! ## Output trace -/

/-- Colours used inside the control loop. -/
inductive Color
  | BKGD
  | RED
  | LIME
  deriving DecidableEq, Repr

/-- Calls to the external collaborators, in the order in which they are issued. -/
inductive Event
  | Display (color : Color) (str : List Int)
  | DrawRectangle (x1 y1 x2 y2 : Int) (color : Color)
  | sht15_start
  | sht15_command (opcode : Nat)
  | sht15_read_byte16 (result : Nat)
  deriving DecidableEq, Repr

/-- A C string literal of the display library: row byte, column byte, then the text. -/
def cstr (row col : Int) (text : String) : List Int :=
  row :: col :: text.toList.map (fun c => (c.toNat : Int))

/-! ## Program state -/

/-- The global and function-static variables of `P11.c` that the control loop uses. -/
structure State where
  MaxTemp : Int
  MinTemp : Int
  MaxHumid : Int
  MinHumid : Int
  MaxTempCpy : Int
  MaxHumidCpy : Int
  MinTempCpy : Int
  MinHumidCpy : Int
  TargetChange : Int
  IsConfirmed : Int
  DELRPG : Int
  OLDRPG : Nat
  NEWRPG : Nat
  tsx : Int
  tsy : Int
  CurrentTemp : ℚ
  CurrentHumidity : ℚ
  TargetStr1 : List Int
  TargetStr2 : List Int
  TargetStr3 : List Int
  TargetStr4 : List Int
  CurTempStr : List Int
  CurHumidStr : List Int
  CurDewPointStr : List Int
  Alert1Fixed : Bool
  Alert2Fixed : Bool
  Alert3Fixed : Bool
  Alert4Fixed : Bool
  LATD0 : Bool
  HUMID_COUNT : Int
  TEMP_COUNT : Int
  ReadHumidity_prevRead : Int
  ReadTemp_prevRead : Int
  DewPoint_prevRead : Int
  out : List Event
  deriving DecidableEq

/-- Constant strings `AlertStr1 .. AlertStr4` and `BlankStr1 .. BlankStr4`. -/
def AlertStr1 : List Int := cstr 3 9 "!!!"
def AlertStr2 : List Int := cstr 4 9 "!!!"
def AlertStr3 : List Int := cstr 3 22 "!!!"
def AlertStr4 : List Int := cstr 4 22 "!!!"
def BlankStr1 : List Int := cstr 3 9 "   "
def BlankStr2 : List Int := cstr 4 9 "   "
def BlankStr3 : List Int := cstr 3 22 "   "
def BlankStr4 : List Int := cstr 4 22 "   "

/-- The state on entry to the main loop: the initialisers of the globals and statics,
with `OLDRPG` formed by `InitRPG` from the port value read at start-up. The trace
starts empty at loop entry. -/
def initState (PORTB : Nat) : State where
  MaxTemp := 50
  MinTemp := -10
  MaxHumid := 100
  MinHumid := 0
  MaxTempCpy := 50
  MaxHumidCpy := 100
  MinTempCpy := -10
  MinHumidCpy := 0
  TargetChange := 0
  IsConfirmed := 0
  DELRPG := 0
  OLDRPG := PORTB &&& 0x000C
  NEWRPG := 0
  tsx := 0
  tsy := 0
  CurrentTemp := 0
  CurrentHumidity := 0
  TargetStr1 := cstr 2 3 "Max Temp: 00  C"
  TargetStr2 := cstr 2 3 "Max Humid: 000%"
  TargetStr3 := cstr 2 3 "Min Temp: 00  C"
  TargetStr4 := cstr 2 3 "Min Humid: 000%"
  CurTempStr := cstr 5 13 "Temp: 00.00 C"
  CurHumidStr := cstr 6 12 "Humid: 00.00 %"
  CurDewPointStr := cstr 7 11 "DewPnt: 00.00 C"
  Alert1Fixed := false
  Alert2Fixed := false
  Alert3Fixed := false
  Alert4Fixed := false
  LATD0 := false
  HUMID_COUNT := 0
  TEMP_COUNT := 50
  ReadHumidity_prevRead := 0
  ReadTemp_prevRead := 0
  DewPoint_prevRead := 0
  out := []

/-- The call `Display(color, str)`: one trace event carrying the buffer contents. -/
def Display (color : Color) (str : List Int) (s : State) : State :=
  { s with out := s.out ++ [Event.Display color str] }

/-- The call `DrawRectangle(x1, y1, x2, y2, color)`. -/
def DrawRectangle (x1 y1 x2 y2 : Int) (color : Color) (s : State) : State :=
  { s with out := s.out ++ [Event.DrawRectangle x1 y1 x2 y2 color] }

/-! ## Threshold text fields -/

/-- The signed two-digit field written at offsets 11..13 of `TargetStr1`/`TargetStr3`
(the same statements appear in `DetectTarget` and in `SelectBound`). -/
def writeTempField (str : List Int) (v : Int) : List Int :=
  let temp_value : Int := v
  let str := if v < 0 then str.set 11 45 else str.set 11 32
  let temp_value := if v < 0 then wrap16 (temp_value * -1) else temp_value
  let str := str.set 12 (toChar (48 + cdiv temp_value 10))
  let temp_value := cmod temp_value 10
  str.set 13 (toChar (48 + temp_value))

/-- The three-digit field written at offsets 13..15 of `TargetStr2`/`TargetStr4`. -/
def writeHumidField (str : List Int) (v : Int) : List Int :=
  let temp_value : Int := v
  let str := str.set 13 (toChar (48 + cdiv temp_value 100))
  let temp_value := cmod temp_value 100
  let str := str.set 14 (toChar (48 + cdiv temp_value 10))
  let temp_value := cmod temp_value 10
  str.set 15 (toChar (48 + temp_value))

/-! ## Target selector -/

/-- `BoundsDetect(x1, y1, x2, y2)`: 1 when the touch sample `(tsx, tsy)` lies in the
box, bounds included, else 0. -/
def BoundsDetect (s : State) (x1 y1 x2 y2 : Int) : Int :=
  if s.tsx ≥ x1 ∧ s.tsx ≤ x2 then
    if s.tsy ≥ y1 ∧ s.tsy ≤ y2 then 1 else 0
  else 0

/-- First statement of `DetectTarget` (lines 665-686): the box of the upper temperature
bound. On a hit the target is selected, the text field is rewritten from the active
value, the working copy is reset and the field is redrawn. -/
def DetectTarget_MaxTemp (s : State) : State :=
  if BoundsDetect s 5 53 40 69 ≠ 0 then
    let s := { s with TargetChange := 0 }
    let s := { s with TargetStr1 := writeTempField s.TargetStr1 s.MaxTemp }
    let s := { s with MaxTempCpy := s.MaxTemp }
    Display Color.BKGD s.TargetStr1 s
  else s

/-- Second statement of `DetectTarget` (lines 687-702): the box of the upper humidity
bound. -/
def DetectTarget_MaxHumid (s : State) : State :=
  if BoundsDetect s 155 53 190 69 ≠ 0 then
    let s := { s with TargetChange := 1 }
    let s := { s with TargetStr2 := writeHumidField s.TargetStr2 s.MaxHumid }
    let s := { s with MaxHumidCpy := s.MaxHumid }
    Display Color.BKGD s.TargetStr2 s
  else s

/-- Third statement of `DetectTarget` (lines 703-724): the box of the lower temperature
bound. -/
def DetectTarget_MinTemp (s : State) : State :=
  if BoundsDetect s 5 77 40 93 ≠ 0 then
    let s := { s with TargetChange := 2 }
    let s := { s with TargetStr3 := writeTempField s.TargetStr3 s.MinTemp }
    let s := { s with MinTempCpy := s.MinTemp }
    Display Color.BKGD s.TargetStr3 s
  else s

/-- Fourth statement of `DetectTarget` (lines 725-740): the box of the lower humidity
bound. -/
def DetectTarget_MinHumid (s : State) : State :=
  if BoundsDetect s 155 77 190 93 ≠ 0 then
    let s := { s with TargetChange := 3 }
    let s := { s with TargetStr4 := writeHumidField s.TargetStr4 s.MinHumid }
    let s := { s with MinHumidCpy := s.MinHumid }
    Display Color.BKGD s.TargetStr4 s
  else s

/-- `DetectTarget()`: its four independent `if` statements in source order. -/
def DetectTarget (s : State) : State :=
  DetectTarget_MinHumid (DetectTarget_MinTemp (DetectTarget_MaxHumid
    (DetectTarget_MaxTemp s)))

/-! ## Rotary pulse generator -/

/-- `RPG()`: `PORTB` is the port value read by this call. -/
def RPG (PORTB : Nat) (s : State) : State :=
  let s := { s with DELRPG := 0 }
  let s := { s with NEWRPG := PORTB &&& 0x000C }
  if s.NEWRPG ≠ s.OLDRPG then
    let s :=
      if 0x0008 &&& (s.OLDRPG ^^^ ((s.NEWRPG <<< 1) % 65536)) ≠ 0 then
        { s with DELRPG := 1 }
      else
        { s with DELRPG := -1 }
    { s with OLDRPG := s.NEWRPG }
  else s

/-! ## Threshold editor -/

/-- `SelectBound()`: `RB0` is the level of the pushbutton input `_RB0` read by this
call (`true` = 1 = released, `false` = 0 = pressed). -/
def SelectBound (RB0 : Bool) (s : State) : State :=
  let make_change : Int := 0
  let s := { s with IsConfirmed := if RB0 then 0 else 1 }
  let make_change := if s.IsConfirmed ≠ 0 then 1 else make_change
  let s := if s.IsConfirmed ≠ 0 then { s with IsConfirmed := 0 } else s
  if s.TargetChange = 0 then
    let s := if make_change ≠ 0 then { s with MaxTemp := s.MaxTempCpy } else s
    let s :=
      if s.DELRPG = 1 ∧ s.MaxTempCpy < 50 then
        { s with MaxTempCpy := toChar (s.MaxTempCpy + 1) }
      else if s.DELRPG = -1 ∧ s.MaxTempCpy > -10 then
        { s with MaxTempCpy := toChar (s.MaxTempCpy - 1) }
      else s
    let s := { s with TargetStr1 := writeTempField s.TargetStr1 s.MaxTempCpy }
    Display Color.BKGD s.TargetStr1 s
  else if s.TargetChange = 1 then
    let s := if make_change ≠ 0 then { s with MaxHumid := s.MaxHumidCpy } else s
    let s :=
      if s.DELRPG = 1 ∧ s.MaxHumidCpy < 100 then
        { s with MaxHumidCpy := toChar (s.MaxHumidCpy + 1) }
      else if s.DELRPG = -1 ∧ s.MaxHumidCpy > 0 then
        { s with MaxHumidCpy := toChar (s.MaxHumidCpy - 1) }
      else s
    let s := { s with TargetStr2 := writeHumidField s.TargetStr2 s.MaxHumidCpy }
    Display Color.BKGD s.TargetStr2 s
  else if s.TargetChange = 2 then
    let s := if make_change ≠ 0 then { s with MinTemp := s.MinTempCpy } else s
    let s :=
      if s.DELRPG = 1 ∧ s.MinTempCpy < 50 then
        { s with MinTempCpy := toChar (s.MinTempCpy + 1) }
      else if s.DELRPG = -1 ∧ s.MinTempCpy > -10 then
        { s with MinTempCpy := toChar (s.MinTempCpy - 1) }
      else s
    let s := { s with TargetStr3 := writeTempField s.TargetStr3 s.MinTempCpy }
    Display Color.BKGD s.TargetStr3 s
  else
    let s := if make_change ≠ 0 then { s with MinHumid := s.MinHumidCpy } else s
    let s :=
      if s.DELRPG = 1 ∧ s.MinHumidCpy < 100 then
        { s with MinHumidCpy := toChar (s.MinHumidCpy + 1) }
      else if s.DELRPG = -1 ∧ s.MinHumidCpy > 0 then
        { s with MinHumidCpy := toChar (s.MinHumidCpy - 1) }
      else s
    let s := { s with TargetStr4 := writeHumidField s.TargetStr4 s.MinHumidCpy }
    Display Color.BKGD s.TargetStr4 s

/-! ## Sensor readers -/

/-- The expression of `DewPoint` (Magnus form), with `Tn = 243.12`, `m = 17.62`; `ln` is
the logarithm in use. -/
def dewPointFormula {α : Type} [Field α] (ln : α → α) (T RH : α) : α :=
  let Tn : α := 24312 / 100
  let m : α := 1762 / 100
  Tn * ((ln (RH / 100) + ((m * T) / (Tn + T))) / (m - ln (RH / 100) - ((m * T) / (Tn + T))))

/-- The digit stores of `DewPoint` into `CurDewPointStr` (offsets 10, 11, 13, 14). -/
def DewPoint_text (str : List Int) (Dewpoint : ℚ) : List Int :=
  let intVal := truncQ Dewpoint
  let Dewpoint := Dewpoint - intVal
  let str := str.set 10 (toChar (48 + cdiv intVal 10))
  let intVal := cmod intVal 10
  let str := str.set 11 (toChar (48 + cdiv intVal 1))
  let str := str.set 13 (toChar (48 + truncQ (Dewpoint * 10)))
  let intVal := truncQ (Dewpoint * 100)
  let intVal := cmod intVal 10
  str.set 14 (toChar (48 + intVal))

/-- `DewPoint()`: dew point from the current globals, text field and bar graph. -/
def DewPoint (ln : ℚ → ℚ) (s : State) : State :=
  let RH : ℚ := s.CurrentHumidity
  let T : ℚ := s.CurrentTemp
  let Dewpoint : ℚ := dewPointFormula ln T RH
  let DewPntCpy : Int := wrap16 (truncQ Dewpoint + 10)
  let intVal : Int := truncQ Dewpoint
  let printPermit : Int := if intVal ≠ s.DewPoint_prevRead then 1 else 0
  let s := if intVal ≠ s.DewPoint_prevRead then { s with DewPoint_prevRead := toChar intVal } else s
  let s := { s with CurDewPointStr := DewPoint_text s.CurDewPointStr Dewpoint }
  let s := Display Color.BKGD s.CurDewPointStr s
  if printPermit ≠ 0 then
    let s := DrawRectangle 5 149 (5 + 115) 165 Color.BKGD s
    DrawRectangle 5 149 (wrap16 (5 + wrap16 (2 * DewPntCpy))) 165 Color.LIME s
  else s

/-- The value `c1 + c2*temp_response + c3*(temp_response*temp_response)` computed by
`ReadHumidity` from the sensor word: the word is held in an `int`, and the product of
the two `int` operands is an `int`. -/
def humidityValue (word : Nat) : ℚ :=
  let c1 : ℚ := -20468 / 10000
  let c2 : ℚ := 367 / 10000
  let c3 : ℚ := -15955 / 10000000000
  let response : Int := wrap16 word
  let temp_response : Int := response
  c1 + (c2 * temp_response) + (c3 * ((wrap16 (temp_response * temp_response) : Int) : ℚ))

/-- The digit stores of `ReadHumidity` into `CurHumidStr` (offsets 8, 9, 10, 12, 13). -/
def ReadHumidity_text (str : List Int) (floatVal : ℚ) : List Int :=
  let temp_response := truncQ floatVal
  let floatVal := floatVal - temp_response
  let str := str.set 8 (toChar (48 + cdiv temp_response 100))
  let temp_response := cmod temp_response 100
  let str := str.set 9 (toChar (48 + cdiv temp_response 10))
  let temp_response := cmod temp_response 10
  let str := str.set 10 (toChar (48 + cdiv temp_response 1))
  let str := str.set 12 (toChar (48 + truncQ (floatVal * 10)))
  let temp_response := truncQ (floatVal * 100)
  let temp_response := cmod temp_response 10
  str.set 13 (toChar (48 + temp_response))

/-- `ReadHumidity()`: `word` is what `sht15_read_byte16` returns if this call converts. -/
def ReadHumidity (ln : ℚ → ℚ) (word : Nat) (s : State) : State :=
  let s := { s with HUMID_COUNT := wrap16 (s.HUMID_COUNT + 1) }
  if s.HUMID_COUNT = 100 then
    let s := { s with HUMID_COUNT := 0 }
    let s := { s with out := s.out ++ [Event.sht15_start] }
    let s := { s with out := s.out ++ [Event.sht15_command 5] }
    let s := { s with out := s.out ++ [Event.sht15_read_byte16 word] }
    let floatVal : ℚ := humidityValue word
    let s := { s with CurrentHumidity := floatVal }
    let temp_response : Int := truncQ floatVal
    let printPermit : Int := if temp_response ≠ s.ReadHumidity_prevRead then 1 else 0
    let s :=
      if temp_response ≠ s.ReadHumidity_prevRead then
        { s with ReadHumidity_prevRead := temp_response }
      else s
    let s := { s with CurHumidStr := ReadHumidity_text s.CurHumidStr floatVal }
    let s := Display Color.BKGD s.CurHumidStr s
    let temp_response : Int := truncQ s.CurrentHumidity
    let s :=
      if printPermit ≠ 0 then
        let s := DrawRectangle 5 125 (5 + 130) 141 Color.BKGD s
        DrawRectangle 5 125 (wrap16 (5 + temp_response)) 141 Color.LIME s
      else s
    DewPoint ln s
  else s

/-- The value `d1 + d2*temp_response` computed by `ReadTemp` from the sensor word, which
is held in an `int`. -/
def temperatureValue (word : Nat) : ℚ :=
  let d1 : ℚ := -397 / 10
  let d2 : ℚ := 1 / 100
  let response : Int := wrap16 word
  let temp_response : Int := response
  d1 + (d2 * temp_response)

/-- The digit stores of `ReadTemp` into `CurTempStr` (offsets 8, 9, 11, 12). -/
def ReadTemp_text (str : List Int) (floatVal : ℚ) : List Int :=
  let temp_response := truncQ floatVal
  let floatVal := floatVal - temp_response
  let str := str.set 8 (toChar (48 + cdiv temp_response 10))
  let temp_response := cmod temp_response 10
  let str := str.set 9 (toChar (48 + cdiv temp_response 1))
  let str := str.set 11 (toChar (48 + truncQ (floatVal * 10)))
  let temp_response := truncQ (floatVal * 100)
  let temp_response := cmod temp_response 10
  str.set 12 (toChar (48 + temp_response))

/-- `ReadTemp()`: `word` is what `sht15_read_byte16` returns if this call converts. -/
def ReadTemp (word : Nat) (s : State) : State :=
  let s := { s with TEMP_COUNT := wrap16 (s.TEMP_COUNT + 1) }
  if s.TEMP_COUNT = 100 then
    let s := { s with TEMP_COUNT := 0 }
    let s := { s with out := s.out ++ [Event.sht15_start] }
    let s := { s with out := s.out ++ [Event.sht15_command 3] }
    let s := { s with out := s.out ++ [Event.sht15_read_byte16 word] }
    let floatVal : ℚ := temperatureValue word
    let s := { s with CurrentTemp := floatVal }
    let temp_response : Int := truncQ floatVal
    let printPermit : Int := if s.ReadTemp_prevRead ≠ temp_response then 1 else 0
    let s :=
      if s.ReadTemp_prevRead ≠ temp_response then
        { s with ReadTemp_prevRead := temp_response }
      else s
    let s := { s with CurTempStr := ReadTemp_text s.CurTempStr floatVal }
    let s := Display Color.BKGD s.CurTempStr s
    let temp_response : Int := wrap16 (truncQ s.CurrentTemp + 10)
    if printPermit ≠ 0 then
      let s := DrawRectangle 5 101 (5 + 130) 117 Color.BKGD s
      DrawRectangle 5 101 (wrap16 (5 + wrap16 (2 * temp_response))) 117 Color.LIME s
    else s
  else s

/-! ## Alert engine -/

/-- First statement of `CheckAlerts` (lines 202-211): the latch `Alert2Fixed` of the
lower temperature bound. -/
def CheckAlerts_MinTemp (s : State) : State :=
  if s.CurrentTemp < (s.MinTemp : ℚ) ∧ s.Alert2Fixed = false then
    Display Color.RED AlertStr2 { s with Alert2Fixed := true }
  else if s.CurrentTemp ≥ (s.MinTemp : ℚ) ∧ s.Alert2Fixed = true then
    Display Color.BKGD BlankStr2 { s with Alert2Fixed := false }
  else s

/-- Second statement of `CheckAlerts` (lines 213-222): the latch `Alert1Fixed` of the
upper temperature bound. -/
def CheckAlerts_MaxTemp (s : State) : State :=
  if (s.CurrentTemp - (s.MaxTemp : ℚ)) > 0 ∧ s.Alert1Fixed = false then
    Display Color.RED AlertStr1 { s with Alert1Fixed := true }
  else if s.CurrentTemp ≤ (s.MaxTemp : ℚ) * 1 ∧ s.Alert1Fixed = true then
    Display Color.BKGD BlankStr1 { s with Alert1Fixed := false }
  else s

/-- Third statement of `CheckAlerts` (lines 224-233): the latch `Alert3Fixed` of the
upper humidity bound. -/
def CheckAlerts_MaxHumid (s : State) : State :=
  if s.CurrentHumidity > (s.MaxHumid : ℚ) ∧ s.Alert3Fixed = false then
    Display Color.RED AlertStr3 { s with Alert3Fixed := true }
  else if s.CurrentHumidity ≤ (s.MaxHumid : ℚ) ∧ s.Alert3Fixed = true then
    Display Color.BKGD BlankStr3 { s with Alert3Fixed := false }
  else s

/-- Fourth statement of `CheckAlerts` (lines 235-244): the latch `Alert4Fixed` of the
lower humidity bound. -/
def CheckAlerts_MinHumid (s : State) : State :=
  if s.CurrentHumidity < (s.MinHumid : ℚ) ∧ s.Alert4Fixed = false then
    Display Color.RED AlertStr4 { s with Alert4Fixed := true }
  else if s.CurrentHumidity ≥ (s.MinHumid : ℚ) ∧ s.Alert4Fixed = true then
    Display Color.BKGD BlankStr4 { s with Alert4Fixed := false }
  else s

/-- Last statement of `CheckAlerts` (lines 246-253): the alarm output `_LATD0`. -/
def CheckAlerts_alarm (s : State) : State :=
  if s.Alert1Fixed || s.Alert2Fixed || s.Alert3Fixed || s.Alert4Fixed then
    { s with LATD0 := true }
  else
    { s with LATD0 := false }

/-- `CheckAlerts()`: its five statements in source order. -/
def CheckAlerts (s : State) : State :=
  CheckAlerts_alarm (CheckAlerts_MinHumid (CheckAlerts_MaxHumid
    (CheckAlerts_MaxTemp (CheckAlerts_MinTemp s))))

/-! ## Main loop -/

/-- The hardware inputs of one pass of the main loop: the touch sample, the port value
seen by `RPG`, the button level seen by `SelectBound`, and the words the sensor would
return to `ReadHumidity` and to `ReadTemp`. -/
structure Input where
  tsx : Int
  tsy : Int
  PORTB : Nat
  RB0 : Bool
  humidWord : Nat
  tempWord : Nat
  deriving DecidableEq, Repr

/-- Modelled from the spec: `DetectTouch` is defined in `MikroTouch.c`, which is not
among the sources; the touch digitizer is a source of `(x, y)` samples, stored in the
globals `tsx`, `tsy` that `BoundsDetect` reads. -/
def DetectTouch (x y : Int) (s : State) : State :=
  { s with tsx := x, tsy := y }

/-- The editing part of one loop pass: `DetectTouch; DetectTarget; RPG; SelectBound`. -/
def editTick (i : Input) (s : State) : State :=
  SelectBound i.RB0 (RPG i.PORTB (DetectTarget (DetectTouch i.tsx i.tsy s)))

/-- One pass of the body of `main`'s loop. -/
def tick (ln : ℚ → ℚ) (i : Input) (s : State) : State :=
  CheckAlerts (ReadTemp i.tempWord (ReadHumidity ln i.humidWord (editTick i s)))

/-- The state after the loop passes for the inputs `is`, oldest first. -/
def run (ln : ℚ → ℚ) (is : List Input) (s : State) : State :=
  is.foldl (fun s i => tick ln i s) s

/-- The state after the editing parts of the loop passes for the inputs `is`. -/
def runEdit (is : List Input) (s : State) : State :=
  is.foldl (fun s i => editTick i s) s

/-! ## Observations used in the statements -/

/-- The four active thresholds. -/
def actives (s : State) : Int × Int × Int × Int :=
  (s.MaxTemp, s.MinTemp, s.MaxHumid, s.MinHumid)

/-- The four working copies. -/
def copies (s : State) : Int × Int × Int × Int :=
  (s.MaxTempCpy, s.MinTempCpy, s.MaxHumidCpy, s.MinHumidCpy)

/-- The threshold state: active values, working copies and the selection. -/
def thresholdState (s : State) : (Int × Int × Int × Int) × (Int × Int × Int × Int) × Int :=
  (actives s, copies s, s.TargetChange)

/-- The active value of the threshold that `SelectBound` edits in state `s`. -/
def selActive (s : State) : Int :=
  if s.TargetChange = 0 then s.MaxTemp
  else if s.TargetChange = 1 then s.MaxHumid
  else if s.TargetChange = 2 then s.MinTemp
  else s.MinHumid

/-- The working copy of the threshold that `SelectBound` edits in state `s`. -/
def selCopy (s : State) : Int :=
  if s.TargetChange = 0 then s.MaxTempCpy
  else if s.TargetChange = 1 then s.MaxHumidCpy
  else if s.TargetChange = 2 then s.MinTempCpy
  else s.MinHumidCpy

/-- Lower limit of the comparisons guarding the selected working copy. -/
def selLo (s : State) : Int :=
  if s.TargetChange = 0 ∨ s.TargetChange = 2 then -10 else 0

/-- Upper limit of the comparisons guarding the selected working copy. -/
def selHi (s : State) : Int :=
  if s.TargetChange = 0 ∨ s.TargetChange = 2 then 50 else 100

/-- The valid ranges: temperatures in `[-10, 50]`, humidities in `[0, 100]`, for the
working copies and for the active values. -/
def InRange (s : State) : Prop :=
  (-10 ≤ s.MaxTempCpy ∧ s.MaxTempCpy ≤ 50) ∧ (-10 ≤ s.MinTempCpy ∧ s.MinTempCpy ≤ 50) ∧
  (0 ≤ s.MaxHumidCpy ∧ s.MaxHumidCpy ≤ 100) ∧ (0 ≤ s.MinHumidCpy ∧ s.MinHumidCpy ≤ 100) ∧
  (-10 ≤ s.MaxTemp ∧ s.MaxTemp ≤ 50) ∧ (-10 ≤ s.MinTemp ∧ s.MinTemp ≤ 50) ∧
  (0 ≤ s.MaxHumid ∧ s.MaxHumid ≤ 100) ∧ (0 ≤ s.MinHumid ∧ s.MinHumid ≤ 100)

instance (s : State) : Decidable (InRange s) := by
  unfold InRange
  exact inferInstance

/-- The events issued between state `s` and a later state `t`. -/
def newEvents (s t : State) : List Event :=
  t.out.drop s.out.length

/-- The guarded increment/decrement that `SelectBound` applies to the selected working
copy, as a function of the limits, the step `DELRPG` and the copy. -/
def stepCopy (lo hi d c : Int) : Int :=
  if d = 1 ∧ c < hi then toChar (c + 1)
  else if d = -1 ∧ c > lo then toChar (c - 1)
  else c

/-- `SelectBound` alone, applied for a list of `(DELRPG, _RB0)` pairs, oldest first. -/
def applySteps (steps : List (Int × Bool)) (s : State) : State :=
  steps.foldl (fun s d => SelectBound d.2 { s with DELRPG := d.1 }) s

/-- The point `(x, y)` lies in the rectangle with corners `(x1, y1)`, `(x2, y2)`, bounds
included. -/
def inRect (x y x1 y1 x2 y2 : Int) : Prop :=
  x1 ≤ x ∧ x ≤ x2 ∧ y1 ≤ y ∧ y ≤ y2

instance (x y x1 y1 x2 y2 : Int) : Decidable (inRect x y x1 y1 x2 y2) := by
  unfold inRect
  exact inferInstance

/-- The target selector applied to the touch sample `(x, y)`:
`DetectTouch; DetectTarget`. -/
def touchAt (x y : Int) (s : State) : State :=
  DetectTarget (DetectTouch x y s)

/-- The values of the latch `Alert1Fixed` after each of successive `CheckAlerts` calls,
the temperature reading of each call being the next element of the list. -/
def maxTempLatchTrace : List ℚ → State → List Bool
  | [], _ => []
  | T :: Ts, s =>
    (CheckAlerts { s with CurrentTemp := T }).Alert1Fixed ::
      maxTempLatchTrace Ts (CheckAlerts { s with CurrentTemp := T })

/-- The redraw a latch change calls for: the alert string in red when the latch goes
from clear to breached, the blank string when it goes from breached to clear, nothing
when it keeps its value. -/
def edgeEvents (old new : Bool) (alert blank : List Int) : List Event :=
  if old = false ∧ new = true then [Event.Display Color.RED alert]
  else if old = true ∧ new = false then [Event.Display Color.BKGD blank]
  else []

/-- A loop pass with no touch in any box, the encoder lines at `10` and the pushbutton
held down. -/
def heldButtonInput : Input where
  tsx := 0
  tsy := 0
  PORTB := 8
  RB0 := false
  humidWord := 0
  tempWord := 0

/-- A loop pass with a touch in the box of the lower temperature bound, the encoder
lines moved to `01` and the pushbutton released. -/
def turnInput : Input where
  tsx := 10
  tsy := 80
  PORTB := 4
  RB0 := true
  humidWord := 1000
  tempWord := 6000

/-- The start state with an uncommitted edit of the upper temperature bound. -/
def editedState : State :=
  { initState 0 with MaxTempCpy := 42 }

/-! ## Observations and reference formulas for the sensor readers -/

/-- The opcodes of the sensor bus commands among the events `es`, in call order:
`5` is sent by `ReadHumidity`, `3` by `ReadTemp`. -/
def busCommands (es : List Event) : List Nat :=
  es.filterMap (fun e =>
    match e with
    | Event.sht15_command opcode => some opcode
    | _ => none)

/-- The two conversion counters and the bus commands issued so far. -/
def cadenceView (s : State) : Int × Int × List Nat :=
  (s.HUMID_COUNT, s.TEMP_COUNT, busCommands s.out)

/-- The published readings and the dew point field: the two reading globals, the dew
point text buffer and the integer part last drawn by `DewPoint`. -/
def readingsView (s : State) : ℚ × ℚ × List Int × Int :=
  (s.CurrentTemp, s.CurrentHumidity, s.CurDewPointStr, s.DewPoint_prevRead)

/-- Reference formula of the spec for the relative humidity,
`c1 + c2*r + c3*r^2` with the mathematical square of the raw code `r`. -/
def humidityFormula (r : ℚ) : ℚ :=
  -20468 / 10000 + 367 / 10000 * r + -15955 / 10000000000 * r ^ 2

/-- Reference formula of the spec for the temperature, `d1 + d2*r`. -/
def temperatureFormula (r : ℚ) : ℚ :=
  -397 / 10 + 1 / 100 * r

/-- The text buffer of the threshold that `SelectBound` edits in state `s`. -/
def selStr (s : State) : List Int :=
  if s.TargetChange = 0 then s.TargetStr1
  else if s.TargetChange = 1 then s.TargetStr2
  else if s.TargetChange = 2 then s.TargetStr3
  else s.TargetStr4

/-- The character code `c` is one of `'0'` .. `'9'`. -/
def isDigitChar (c : Int) : Prop := 48 ≤ c ∧ c ≤ 57

instance (c : Int) : Decidable (isDigitChar c) := by
  unfold isDigitChar
  exact inferInstance

/-- Reading of a temperature field: the sign glyph at offset 11 (`'-'` is 45) and the
two digits at offsets 12 and 13 of a threshold text buffer, as a number. -/
def decodeTempField (str : List Int) : Int :=
  (if str.getD 11 0 = 45 then -1 else 1) * (10 * (str.getD 12 0 - 48) + (str.getD 13 0 - 48))

/-- Reading of a humidity field: the three digits at offsets 13, 14 and 15 of a threshold
text buffer, as a number. -/
def decodeHumidField (str : List Int) : Int :=
  100 * (str.getD 13 0 - 48) + 10 * (str.getD 14 0 - 48) + (str.getD 15 0 - 48)

/-- The start state one call before a humidity conversion (`HUMID_COUNT = 99`). -/
def humidDue : State :=
  { initState 0 with HUMID_COUNT := 99 }

/-- The start state one call before a temperature conversion (`TEMP_COUNT = 99`), the
humidity counter being at the value it has then. -/
def tempDue : State :=
  { initState 0 with HUMID_COUNT := 49, TEMP_COUNT := 99 }

/-- The state `tempDue` with a saturated humidity reading: temperature 0, humidity 100
and the dew point field showing `00.00`. -/
def saturatedTempDue : State :=
  { tempDue with CurrentHumidity := 100 }

/-- A state one call before a temperature conversion in which the last temperature
drawn had the integer part 20. -/
def tempSameInt : State :=
  { initState 0 with HUMID_COUNT := 49, TEMP_COUNT := 99, ReadTemp_prevRead := 20 }

/-- A state one call before a humidity conversion in which the last humidity drawn had
the integer part 34. -/
def humidSameInt : State :=
  { initState 0 with HUMID_COUNT := 99, ReadHumidity_prevRead := 34 }

/-- A state with the upper temperature bound selected, an uncommitted edit of it and a
pending step down. -/
def steppingState : State :=
  { initState 0 with MaxTempCpy := 42, DELRPG := -1 }

/-! ## Observations and inputs for the ordering of the bounds -/

/-- What the editing part of a loop pass reads and writes of the state it is given: the
threshold state and the previous encoder sample. -/
def editView (s : State) : ((Int × Int × Int × Int) × (Int × Int × Int × Int) × Int) × Nat :=
  (thresholdState s, s.OLDRPG)

/-- Pass `k` of a steady counter-clockwise rotation from the sample `00`: no touch in any
box, the encoder samples `10, 11, 01, 00` in turn, pushbutton released. -/
def turnDownInput (k : Nat) : Input where
  tsx := 0
  tsy := 0
  PORTB := [8, 12, 4, 0].getD (k % 4) 0
  RB0 := true
  humidWord := 1000
  tempWord := 6000

/-- Pass `k` of a steady clockwise rotation from the sample `00`: no touch in any box, the
encoder samples `01, 11, 10, 00` in turn, pushbutton released. -/
def turnUpInput (k : Nat) : Input where
  tsx := 0
  tsy := 0
  PORTB := [4, 12, 8, 0].getD (k % 4) 0
  RB0 := true
  humidWord := 1000
  tempWord := 6000

/-- A loop pass with no touch in any box, the encoder at rest on the sample `00` and the
pushbutton pressed. -/
def pressInput : Input where
  tsx := 0
  tsy := 0
  PORTB := 0
  RB0 := false
  humidWord := 1000
  tempWord := 6000

/-- A loop pass with a touch in the box of the lower temperature bound, the encoder at
rest on the sample `00` and the pushbutton released. -/
def touchMinTempInput : Input where
  tsx := 10
  tsy := 80
  PORTB := 0
  RB0 := true
  humidWord := 1000
  tempWord := 6000

/-- The inputs of 122 loop passes: 60 steps down on the upper temperature bound (selected
at start-up), a confirm, a touch on the lower temperature bound, 60 steps up, a
confirm. -/
def crossingInputs : List Input :=
  (List.range 60).map turnDownInput ++ [pressInput, touchMinTempInput] ++
    (List.range 60).map turnUpInput ++ [pressInput]

/-! ## Shared lemmas: machine arithmetic -/

theorem toChar_of_range (z : Int) (h1 : -128 ≤ z) (h2 : z ≤ 127) : toChar z = z := by
  unfold toChar
  omega

theorem wrap16_of_range (z : Int) (h1 : -32768 ≤ z) (h2 : z ≤ 32767) : wrap16 z = z := by
  unfold wrap16
  omega

theorem land_twelve_cases (p : Nat) :
    p &&& 12 = 0 ∨ p &&& 12 = 4 ∨ p &&& 12 = 8 ∨ p &&& 12 = 12 := by
  have h : p &&& 12 = (p % 16) &&& 12 := by
    have h15 : p % 16 = p &&& 15 := by
      have := Nat.and_pow_two_sub_one_eq_mod p 4
      simpa using this.symm
    rw [h15, Nat.and_assoc]
    rfl
  rw [h]
  have hlt : p % 16 < 16 := Nat.mod_lt _ (by decide)
  interval_cases (p % 16) <;> decide

/-! ## Shared lemmas: the range invariant -/

theorem SelectBound_inRange (b : Bool) (s : State) (h : InRange s) :
    InRange (SelectBound b s) := by
  unfold InRange at *
  obtain ⟨⟨h1, h2⟩, ⟨h3, h4⟩, ⟨h5, h6⟩, ⟨h7, h8⟩, ⟨h9, h10⟩, ⟨h11, h12⟩, ⟨h13, h14⟩, h15, h16⟩ := h
  cases b <;> simp [SelectBound, Display] <;> split_ifs <;> simp [toChar] <;>
    (refine ⟨⟨?_, ?_⟩, ⟨?_, ?_⟩, ⟨?_, ?_⟩, ⟨?_, ?_⟩, ⟨?_, ?_⟩, ⟨?_, ?_⟩, ⟨?_, ?_⟩, ?_, ?_⟩) <;> omega

theorem BoundsDetect_ne_zero (s : State) (x1 y1 x2 y2 : Int) :
    BoundsDetect s x1 y1 x2 y2 ≠ 0 ↔ inRect s.tsx s.tsy x1 y1 x2 y2 := by
  unfold BoundsDetect inRect
  split_ifs <;> simp <;> omega

theorem DetectTarget_MaxTemp_eq (s : State) :
    DetectTarget_MaxTemp s =
      if inRect s.tsx s.tsy 5 53 40 69 then
        { s with
          TargetChange := 0
          TargetStr1 := writeTempField s.TargetStr1 s.MaxTemp
          MaxTempCpy := s.MaxTemp
          out := s.out ++ [Event.Display Color.BKGD (writeTempField s.TargetStr1 s.MaxTemp)] }
      else s := by
  simp only [DetectTarget_MaxTemp, BoundsDetect_ne_zero, Display]

theorem DetectTarget_MaxHumid_eq (s : State) :
    DetectTarget_MaxHumid s =
      if inRect s.tsx s.tsy 155 53 190 69 then
        { s with
          TargetChange := 1
          TargetStr2 := writeHumidField s.TargetStr2 s.MaxHumid
          MaxHumidCpy := s.MaxHumid
          out := s.out ++
            [Event.Display Color.BKGD (writeHumidField s.TargetStr2 s.MaxHumid)] }
      else s := by
  simp only [DetectTarget_MaxHumid, BoundsDetect_ne_zero, Display]

theorem DetectTarget_MinTemp_eq (s : State) :
    DetectTarget_MinTemp s =
      if inRect s.tsx s.tsy 5 77 40 93 then
        { s with
          TargetChange := 2
          TargetStr3 := writeTempField s.TargetStr3 s.MinTemp
          MinTempCpy := s.MinTemp
          out := s.out ++ [Event.Display Color.BKGD (writeTempField s.TargetStr3 s.MinTemp)] }
      else s := by
  simp only [DetectTarget_MinTemp, BoundsDetect_ne_zero, Display]

theorem DetectTarget_MinHumid_eq (s : State) :
    DetectTarget_MinHumid s =
      if inRect s.tsx s.tsy 155 77 190 93 then
        { s with
          TargetChange := 3
          TargetStr4 := writeHumidField s.TargetStr4 s.MinHumid
          MinHumidCpy := s.MinHumid
          out := s.out ++
            [Event.Display Color.BKGD (writeHumidField s.TargetStr4 s.MinHumid)] }
      else s := by
  simp only [DetectTarget_MinHumid, BoundsDetect_ne_zero, Display]

theorem DetectTarget_MaxTemp_inRange (s : State) (h : InRange s) :
    InRange (DetectTarget_MaxTemp s) := by
  rw [DetectTarget_MaxTemp_eq]
  unfold InRange at *
  split_ifs <;> (try simp only) <;> tauto

theorem DetectTarget_MaxHumid_inRange (s : State) (h : InRange s) :
    InRange (DetectTarget_MaxHumid s) := by
  rw [DetectTarget_MaxHumid_eq]
  unfold InRange at *
  split_ifs <;> (try simp only) <;> tauto

theorem DetectTarget_MinTemp_inRange (s : State) (h : InRange s) :
    InRange (DetectTarget_MinTemp s) := by
  rw [DetectTarget_MinTemp_eq]
  unfold InRange at *
  split_ifs <;> (try simp only) <;> tauto

theorem DetectTarget_MinHumid_inRange (s : State) (h : InRange s) :
    InRange (DetectTarget_MinHumid s) := by
  rw [DetectTarget_MinHumid_eq]
  unfold InRange at *
  split_ifs <;> (try simp only) <;> tauto

theorem DetectTarget_inRange (s : State) (h : InRange s) : InRange (DetectTarget s) :=
  DetectTarget_MinHumid_inRange _ (DetectTarget_MinTemp_inRange _
    (DetectTarget_MaxHumid_inRange _ (DetectTarget_MaxTemp_inRange _ h)))

theorem RPG_inRange (p : Nat) (s : State) (h : InRange s) : InRange (RPG p s) := by
  unfold InRange at *
  simp [RPG]
  split_ifs <;> exact h

theorem DetectTouch_inRange (x y : Int) (s : State) (h : InRange s) :
    InRange (DetectTouch x y s) := h

theorem editTick_inRange (i : Input) (s : State) (h : InRange s) :
    InRange (editTick i s) := by
  unfold editTick
  exact SelectBound_inRange _ _ (RPG_inRange _ _ (DetectTarget_inRange _
    (DetectTouch_inRange _ _ _ h)))

theorem runEdit_inRange (is : List Input) (s : State) (h : InRange s) :
    InRange (runEdit is s) := by
  induction is generalizing s with
  | nil => exact h
  | cons i is ih => exact ih _ (editTick_inRange i s h)

theorem initState_inRange (p : Nat) : InRange (initState p) := by
  simp [InRange, initState]

theorem applySteps_inRange (steps : List (Int × Bool)) (s : State) (h : InRange s) :
    InRange (applySteps steps s) := by
  induction steps generalizing s with
  | nil => exact h
  | cons d ds ih => exact ih _ (SelectBound_inRange d.2 _ h)

/-! ## Shared lemmas: what each function does to the thresholds -/

theorem SelectBound_fields (b : Bool) (s : State) :
    (SelectBound b s).TargetChange = s.TargetChange ∧
    (SelectBound b s).DELRPG = s.DELRPG ∧
    (SelectBound b s).MaxTemp =
      (if s.TargetChange = 0 ∧ b = false then s.MaxTempCpy else s.MaxTemp) ∧
    (SelectBound b s).MaxHumid =
      (if s.TargetChange = 1 ∧ b = false then s.MaxHumidCpy else s.MaxHumid) ∧
    (SelectBound b s).MinTemp =
      (if s.TargetChange = 2 ∧ b = false then s.MinTempCpy else s.MinTemp) ∧
    (SelectBound b s).MinHumid =
      (if (s.TargetChange ≠ 0 ∧ s.TargetChange ≠ 1 ∧ s.TargetChange ≠ 2) ∧ b = false
        then s.MinHumidCpy else s.MinHumid) ∧
    (SelectBound b s).MaxTempCpy =
      (if s.TargetChange = 0 then stepCopy (-10) 50 s.DELRPG s.MaxTempCpy
        else s.MaxTempCpy) ∧
    (SelectBound b s).MaxHumidCpy =
      (if s.TargetChange = 1 then stepCopy 0 100 s.DELRPG s.MaxHumidCpy
        else s.MaxHumidCpy) ∧
    (SelectBound b s).MinTempCpy =
      (if s.TargetChange = 2 then stepCopy (-10) 50 s.DELRPG s.MinTempCpy
        else s.MinTempCpy) ∧
    (SelectBound b s).MinHumidCpy =
      (if s.TargetChange ≠ 0 ∧ s.TargetChange ≠ 1 ∧ s.TargetChange ≠ 2
        then stepCopy 0 100 s.DELRPG s.MinHumidCpy else s.MinHumidCpy) := by
  by_cases h0 : s.TargetChange = 0
  · cases b <;> simp [SelectBound, Display, stepCopy, h0] <;> split_ifs <;> simp_all
  · by_cases h1 : s.TargetChange = 1
    · cases b <;> simp [SelectBound, Display, stepCopy, h0, h1] <;> split_ifs <;> simp_all
    · by_cases h2 : s.TargetChange = 2
      · cases b <;> simp [SelectBound, Display, stepCopy, h0, h1, h2] <;> split_ifs <;>
          simp_all
      · cases b <;> simp [SelectBound, Display, stepCopy, h0, h1, h2] <;> split_ifs <;>
          simp_all

theorem actives_DetectTouch (x y : Int) (s : State) :
    actives (DetectTouch x y s) = actives s := rfl

theorem thresholdState_DetectTarget_MaxTemp (s : State) :
    thresholdState (DetectTarget_MaxTemp s) =
      if inRect s.tsx s.tsy 5 53 40 69 then
        (actives s, (s.MaxTemp, s.MinTempCpy, s.MaxHumidCpy, s.MinHumidCpy), 0)
      else thresholdState s := by
  rw [DetectTarget_MaxTemp_eq]
  split_ifs <;> rfl

theorem thresholdState_DetectTarget_MaxHumid (s : State) :
    thresholdState (DetectTarget_MaxHumid s) =
      if inRect s.tsx s.tsy 155 53 190 69 then
        (actives s, (s.MaxTempCpy, s.MinTempCpy, s.MaxHumid, s.MinHumidCpy), 1)
      else thresholdState s := by
  rw [DetectTarget_MaxHumid_eq]
  split_ifs <;> rfl

theorem thresholdState_DetectTarget_MinTemp (s : State) :
    thresholdState (DetectTarget_MinTemp s) =
      if inRect s.tsx s.tsy 5 77 40 93 then
        (actives s, (s.MaxTempCpy, s.MinTemp, s.MaxHumidCpy, s.MinHumidCpy), 2)
      else thresholdState s := by
  rw [DetectTarget_MinTemp_eq]
  split_ifs <;> rfl

theorem thresholdState_DetectTarget_MinHumid (s : State) :
    thresholdState (DetectTarget_MinHumid s) =
      if inRect s.tsx s.tsy 155 77 190 93 then
        (actives s, (s.MaxTempCpy, s.MinTempCpy, s.MaxHumidCpy, s.MinHumid), 3)
      else thresholdState s := by
  rw [DetectTarget_MinHumid_eq]
  split_ifs <;> rfl

theorem touch_DetectTarget_MaxTemp (s : State) :
    (DetectTarget_MaxTemp s).tsx = s.tsx ∧ (DetectTarget_MaxTemp s).tsy = s.tsy := by
  rw [DetectTarget_MaxTemp_eq]
  split_ifs <;> exact ⟨rfl, rfl⟩

theorem touch_DetectTarget_MaxHumid (s : State) :
    (DetectTarget_MaxHumid s).tsx = s.tsx ∧ (DetectTarget_MaxHumid s).tsy = s.tsy := by
  rw [DetectTarget_MaxHumid_eq]
  split_ifs <;> exact ⟨rfl, rfl⟩

theorem touch_DetectTarget_MinTemp (s : State) :
    (DetectTarget_MinTemp s).tsx = s.tsx ∧ (DetectTarget_MinTemp s).tsy = s.tsy := by
  rw [DetectTarget_MinTemp_eq]
  split_ifs <;> exact ⟨rfl, rfl⟩

theorem thresholdState_DetectTarget (s : State) :
    thresholdState (DetectTarget s) =
      if inRect s.tsx s.tsy 5 53 40 69 then
        (actives s, (s.MaxTemp, s.MinTempCpy, s.MaxHumidCpy, s.MinHumidCpy), 0)
      else if inRect s.tsx s.tsy 155 53 190 69 then
        (actives s, (s.MaxTempCpy, s.MinTempCpy, s.MaxHumid, s.MinHumidCpy), 1)
      else if inRect s.tsx s.tsy 5 77 40 93 then
        (actives s, (s.MaxTempCpy, s.MinTemp, s.MaxHumidCpy, s.MinHumidCpy), 2)
      else if inRect s.tsx s.tsy 155 77 190 93 then
        (actives s, (s.MaxTempCpy, s.MinTempCpy, s.MaxHumidCpy, s.MinHumid), 3)
      else thresholdState s := by
  have t1 := touch_DetectTarget_MaxTemp s
  have t2 := touch_DetectTarget_MaxHumid (DetectTarget_MaxTemp s)
  have t3 := touch_DetectTarget_MinTemp (DetectTarget_MaxHumid (DetectTarget_MaxTemp s))
  have e1 := thresholdState_DetectTarget_MaxTemp s
  have e2 := thresholdState_DetectTarget_MaxHumid (DetectTarget_MaxTemp s)
  have e3 := thresholdState_DetectTarget_MinTemp
    (DetectTarget_MaxHumid (DetectTarget_MaxTemp s))
  have e4 := thresholdState_DetectTarget_MinHumid
    (DetectTarget_MinTemp (DetectTarget_MaxHumid (DetectTarget_MaxTemp s)))
  rw [t3.1, t3.2, t2.1, t2.2, t1.1, t1.2] at e4
  rw [t2.1, t2.2, t1.1, t1.2] at e3
  rw [t1.1, t1.2] at e2
  unfold DetectTarget
  rw [e4]
  unfold inRect at *
  unfold thresholdState actives copies at *
  split_ifs at * <;> first | omega | simp_all

theorem actives_DetectTarget (s : State) : actives (DetectTarget s) = actives s := by
  have h := congrArg Prod.fst (thresholdState_DetectTarget s)
  refine h.trans ?_
  split_ifs <;> rfl

theorem thresholdState_RPG (p : Nat) (s : State) :
    thresholdState (RPG p s) = thresholdState s := by
  simp [thresholdState, actives, copies, RPG]
  split_ifs <;> simp

theorem actives_RPG (p : Nat) (s : State) : actives (RPG p s) = actives s :=
  congrArg Prod.fst (thresholdState_RPG p s)

theorem actives_SelectBound_released (s : State) :
    actives (SelectBound true s) = actives s := by
  obtain ⟨-, -, h1, h2, h3, h4, -⟩ := SelectBound_fields true s
  simp [actives, h1, h2, h3, h4]

theorem thresholdState_DewPoint (ln : ℚ → ℚ) (s : State) :
    thresholdState (DewPoint ln s) = thresholdState s := by
  simp [thresholdState, actives, copies, DewPoint, Display, DrawRectangle]
  split_ifs <;> simp

theorem thresholdState_ReadHumidity (ln : ℚ → ℚ) (w : Nat) (s : State) :
    thresholdState (ReadHumidity ln w s) = thresholdState s := by
  unfold ReadHumidity
  dsimp only
  split_ifs <;> (try rw [thresholdState_DewPoint]) <;>
    simp [thresholdState, actives, copies, Display, DrawRectangle]

theorem thresholdState_ReadTemp (w : Nat) (s : State) :
    thresholdState (ReadTemp w s) = thresholdState s := by
  simp [thresholdState, actives, copies, ReadTemp, Display, DrawRectangle]
  split_ifs <;> simp

theorem actives_ReadHumidity (ln : ℚ → ℚ) (w : Nat) (s : State) :
    actives (ReadHumidity ln w s) = actives s :=
  congrArg Prod.fst (thresholdState_ReadHumidity ln w s)

theorem actives_ReadTemp (w : Nat) (s : State) :
    actives (ReadTemp w s) = actives s :=
  congrArg Prod.fst (thresholdState_ReadTemp w s)

/-! ## Shared lemmas: the alert engine, statement by statement -/

theorem CheckAlerts_MinTemp_eq (s : State) :
    CheckAlerts_MinTemp s =
      { s with
        Alert2Fixed := decide (s.CurrentTemp < (s.MinTemp : ℚ))
        out := s.out ++ edgeEvents s.Alert2Fixed (decide (s.CurrentTemp < (s.MinTemp : ℚ)))
          AlertStr2 BlankStr2 } := by
  by_cases hc : s.CurrentTemp < (s.MinTemp : ℚ) <;> cases hl : s.Alert2Fixed <;>
    cases s <;> simp only at hc hl <;>
    simp [CheckAlerts_MinTemp, edgeEvents, Display, hc, hl, le_of_lt, not_le_of_lt, le_of_not_lt]

theorem CheckAlerts_MaxTemp_eq (s : State) :
    CheckAlerts_MaxTemp s =
      { s with
        Alert1Fixed := decide (s.CurrentTemp > (s.MaxTemp : ℚ))
        out := s.out ++ edgeEvents s.Alert1Fixed (decide (s.CurrentTemp > (s.MaxTemp : ℚ)))
          AlertStr1 BlankStr1 } := by
  by_cases hc : s.CurrentTemp > (s.MaxTemp : ℚ) <;> cases hl : s.Alert1Fixed <;>
    cases s <;> simp only at hc hl <;>
    simp [CheckAlerts_MaxTemp, edgeEvents, Display, hc, hl, le_of_lt, not_le_of_lt, le_of_not_lt]

theorem CheckAlerts_MaxHumid_eq (s : State) :
    CheckAlerts_MaxHumid s =
      { s with
        Alert3Fixed := decide (s.CurrentHumidity > (s.MaxHumid : ℚ))
        out := s.out ++
          edgeEvents s.Alert3Fixed (decide (s.CurrentHumidity > (s.MaxHumid : ℚ)))
            AlertStr3 BlankStr3 } := by
  by_cases hc : s.CurrentHumidity > (s.MaxHumid : ℚ) <;> cases hl : s.Alert3Fixed <;>
    cases s <;> simp only at hc hl <;>
    simp [CheckAlerts_MaxHumid, edgeEvents, Display, hc, hl, le_of_lt, not_le_of_lt,
      le_of_not_lt]

theorem CheckAlerts_MinHumid_eq (s : State) :
    CheckAlerts_MinHumid s =
      { s with
        Alert4Fixed := decide (s.CurrentHumidity < (s.MinHumid : ℚ))
        out := s.out ++
          edgeEvents s.Alert4Fixed (decide (s.CurrentHumidity < (s.MinHumid : ℚ)))
            AlertStr4 BlankStr4 } := by
  by_cases hc : s.CurrentHumidity < (s.MinHumid : ℚ) <;> cases hl : s.Alert4Fixed <;>
    cases s <;> simp only at hc hl <;>
    simp [CheckAlerts_MinHumid, edgeEvents, Display, hc, hl, le_of_lt, not_le_of_lt,
      le_of_not_lt]

theorem CheckAlerts_result (s : State) :
    (CheckAlerts s).Alert1Fixed = decide (s.CurrentTemp > (s.MaxTemp : ℚ)) ∧
    (CheckAlerts s).Alert2Fixed = decide (s.CurrentTemp < (s.MinTemp : ℚ)) ∧
    (CheckAlerts s).Alert3Fixed = decide (s.CurrentHumidity > (s.MaxHumid : ℚ)) ∧
    (CheckAlerts s).Alert4Fixed = decide (s.CurrentHumidity < (s.MinHumid : ℚ)) ∧
    (CheckAlerts s).LATD0 =
      ((CheckAlerts s).Alert1Fixed || (CheckAlerts s).Alert2Fixed ||
        (CheckAlerts s).Alert3Fixed || (CheckAlerts s).Alert4Fixed) ∧
    (CheckAlerts s).out =
      s.out ++
        (edgeEvents s.Alert2Fixed (decide (s.CurrentTemp < (s.MinTemp : ℚ)))
            AlertStr2 BlankStr2 ++
          edgeEvents s.Alert1Fixed (decide (s.CurrentTemp > (s.MaxTemp : ℚ)))
            AlertStr1 BlankStr1 ++
          edgeEvents s.Alert3Fixed (decide (s.CurrentHumidity > (s.MaxHumid : ℚ)))
            AlertStr3 BlankStr3 ++
          edgeEvents s.Alert4Fixed (decide (s.CurrentHumidity < (s.MinHumid : ℚ)))
            AlertStr4 BlankStr4) ∧
    (CheckAlerts s).CurrentTemp = s.CurrentTemp ∧
    (CheckAlerts s).CurrentHumidity = s.CurrentHumidity ∧
    thresholdState (CheckAlerts s) = thresholdState s := by
  simp only [CheckAlerts, CheckAlerts_MinTemp_eq, CheckAlerts_MaxTemp_eq,
    CheckAlerts_MaxHumid_eq, CheckAlerts_MinHumid_eq, CheckAlerts_alarm, thresholdState,
    actives, copies]
  split_ifs <;> simp_all

theorem thresholdState_CheckAlerts (s : State) :
    thresholdState (CheckAlerts s) = thresholdState s :=
  (CheckAlerts_result s).2.2.2.2.2.2.2.2

theorem actives_CheckAlerts (s : State) : actives (CheckAlerts s) = actives s :=
  congrArg Prod.fst (thresholdState_CheckAlerts s)

theorem thresholdState_tick (ln : ℚ → ℚ) (i : Input) (s : State) :
    thresholdState (tick ln i s) = thresholdState (editTick i s) := by
  unfold tick
  rw [thresholdState_CheckAlerts, thresholdState_ReadTemp, thresholdState_ReadHumidity]

theorem actives_editTick_released (i : Input) (s : State) (h : i.RB0 = true) :
    actives (editTick i s) = actives s := by
  unfold editTick
  rw [h, actives_SelectBound_released, actives_RPG, actives_DetectTarget,
    actives_DetectTouch]

theorem actives_tick (ln : ℚ → ℚ) (i : Input) (s : State) :
    actives (tick ln i s) = actives (editTick i s) := by
  unfold tick
  rw [actives_CheckAlerts, actives_ReadTemp, actives_ReadHumidity]

theorem actives_run_released (ln : ℚ → ℚ) (is : List Input) (s : State)
    (h : ∀ j ∈ is, j.RB0 = true) : actives (run ln is s) = actives s := by
  induction is generalizing s with
  | nil => rfl
  | cons i is ih =>
    have hi : i.RB0 = true := h i (List.mem_cons_self _ _)
    have hrest : ∀ j ∈ is, j.RB0 = true := fun j hj => h j (List.mem_cons_of_mem _ hj)
    show actives (run ln is (tick ln i s)) = actives s
    rw [ih _ hrest, actives_tick, actives_editTick_released i s hi]

theorem maxTempLatchTrace_eq (Ts : List ℚ) (t : State) :
    maxTempLatchTrace Ts t = Ts.map (fun T => decide (T > (t.MaxTemp : ℚ))) := by
  induction Ts generalizing t with
  | nil => rfl
  | cons T Ts ih =>
    have h := CheckAlerts_result { t with CurrentTemp := T }
    have hM : (CheckAlerts { t with CurrentTemp := T }).MaxTemp = t.MaxTemp :=
      congrArg (fun v => v.1.1) h.2.2.2.2.2.2.2.2
    simp only [maxTempLatchTrace, List.map_cons, ih, hM, h.1]
/-! ## Shared lemmas: target selector and rotary decoder -/

theorem DetectTarget_outside (s : State)
    (h1 : ¬ inRect s.tsx s.tsy 5 53 40 69) (h2 : ¬ inRect s.tsx s.tsy 155 53 190 69)
    (h3 : ¬ inRect s.tsx s.tsy 5 77 40 93) (h4 : ¬ inRect s.tsx s.tsy 155 77 190 93) :
    DetectTarget s = s := by
  have e1 : DetectTarget_MaxTemp s = s := by
    rw [DetectTarget_MaxTemp_eq, if_neg h1]
  have e2 : DetectTarget_MaxHumid s = s := by
    rw [DetectTarget_MaxHumid_eq, if_neg h2]
  have e3 : DetectTarget_MinTemp s = s := by
    rw [DetectTarget_MinTemp_eq, if_neg h3]
  have e4 : DetectTarget_MinHumid s = s := by
    rw [DetectTarget_MinHumid_eq, if_neg h4]
  rw [DetectTarget, e1, e2, e3, e4]

theorem RPG_fields (P : Nat) (s : State) :
    (RPG P s).OLDRPG = P &&& 12 ∧
    (RPG P s).DELRPG =
      if P &&& 12 ≠ s.OLDRPG then
        (if 8 &&& (s.OLDRPG ^^^ (((P &&& 12) <<< 1) % 65536)) ≠ 0 then 1 else -1)
      else 0 := by
  simp [RPG]
  split_ifs <;> simp_all

/-! ## Threshold editing: range invariant and commit semantics -/

/-- C1. Range invariant: in every state reached from the start state by any sequence of
edit passes (`DetectTouch; DetectTarget; RPG; SelectBound`, arbitrary touch points,
encoder samples and button levels) the four working copies and the four active values
lie in their valid ranges; in particular any sequence of steps and button levels
applied by `SelectBound` to the start state keeps `MaxTempCpy` in `[-10, 50]`. -/
theorem range_invariant (PORTB : Nat) (is : List Input) (steps : List (Int × Bool)) :
    InRange (runEdit is (initState PORTB)) ∧
    (-10 ≤ (applySteps steps (initState PORTB)).MaxTempCpy ∧
      (applySteps steps (initState PORTB)).MaxTempCpy ≤ 50) :=
  ⟨runEdit_inRange is _ (initState_inRange PORTB),
   (applySteps_inRange steps _ (initState_inRange PORTB)).1⟩

/-- C2. Active values change only on confirm: a full loop pass with the pushbutton
released (`_RB0 = 1`) leaves the four active values as they were, whatever the touch
point, the encoder sample and the sensor words; hence so does any number of such
passes. -/
theorem actives_unchanged_without_confirm (ln : ℚ → ℚ) (s : State) (i : Input)
    (is : List Input) (hi : i.RB0 = true) (his : ∀ j ∈ is, j.RB0 = true) :
    actives (tick ln i s) = actives s ∧ actives (run ln is s) = actives s :=
  ⟨by rw [actives_tick, actives_editTick_released i s hi],
   actives_run_released ln is s his⟩

/-- Witness of C2: three passes that touch the box of the lower temperature bound and
turn the encoder, button released, starting from an uncommitted edit. -/
theorem actives_unchanged_without_confirm_witness :
    turnInput.RB0 = true ∧ (∀ j ∈ [turnInput, turnInput], j.RB0 = true) ∧
    actives (tick (fun _ => 0) turnInput editedState) = actives editedState ∧
    actives (run (fun _ => 0) [turnInput, turnInput] editedState) = actives editedState :=
  ⟨rfl, by decide,
   actives_unchanged_without_confirm (fun _ => 0) editedState turnInput
     [turnInput, turnInput] rfl (by decide)⟩

/-- C3. The alert latches track the breach conditions: after `CheckAlerts`, whatever the
latches were before, the latch of the upper temperature bound is set iff the
temperature exceeds `MaxTemp`, that of the lower temperature bound iff the temperature
is below `MinTemp`, that of the upper humidity bound iff the humidity exceeds
`MaxHumid`, that of the lower humidity bound iff the humidity is below `MinHumid`; with
the default `MaxTemp = 50` the temperatures 20, 60, 60, 19 give the latch values
false, true, true, false. -/
theorem alert_latch_tracks_breach (s : State) :
    ((CheckAlerts s).Alert1Fixed = true ↔ s.CurrentTemp > (s.MaxTemp : ℚ)) ∧
    ((CheckAlerts s).Alert2Fixed = true ↔ s.CurrentTemp < (s.MinTemp : ℚ)) ∧
    ((CheckAlerts s).Alert3Fixed = true ↔ s.CurrentHumidity > (s.MaxHumid : ℚ)) ∧
    ((CheckAlerts s).Alert4Fixed = true ↔ s.CurrentHumidity < (s.MinHumid : ℚ)) ∧
    maxTempLatchTrace [20, 60, 60, 19] (initState 0) = [false, true, true, false] := by
  obtain ⟨h1, h2, h3, h4, -⟩ := CheckAlerts_result s
  refine ⟨by simp [h1], by simp [h2], by simp [h3], by simp [h4], ?_⟩
  rw [maxTempLatchTrace_eq]
  norm_num [initState]

/-- C4. The alarm output is the OR of the latches: after every `CheckAlerts` call the
bit `_LATD0` is set iff at least one of the four latches, as that call left them, is
set. -/
theorem alarm_is_or_of_latches (s : State) :
    (CheckAlerts s).LATD0 =
      ((CheckAlerts s).Alert1Fixed || (CheckAlerts s).Alert2Fixed ||
        (CheckAlerts s).Alert3Fixed || (CheckAlerts s).Alert4Fixed) ∧
    ((CheckAlerts s).LATD0 = true ↔
      ((CheckAlerts s).Alert1Fixed = true ∨ (CheckAlerts s).Alert2Fixed = true ∨
        (CheckAlerts s).Alert3Fixed = true ∨ (CheckAlerts s).Alert4Fixed = true)) := by
  have h := (CheckAlerts_result s).2.2.2.2.1
  refine ⟨h, ?_⟩
  rw [h]
  simp [or_assoc]

/-- C5. Commit and its idempotence: a `SelectBound` call with the pushbutton pressed and
step 0 leaves the selected active value equal to the selected working copy, and the
same call applied once more changes no active value, no working copy and not the
selection. -/
theorem confirm_commits_and_is_idempotent (s : State) (h : s.DELRPG = 0) :
    selActive (SelectBound false s) = selCopy (SelectBound false s) ∧
    actives (SelectBound false (SelectBound false s)) = actives (SelectBound false s) ∧
    copies (SelectBound false (SelectBound false s)) = copies (SelectBound false s) ∧
    (SelectBound false (SelectBound false s)).TargetChange =
      (SelectBound false s).TargetChange := by
  obtain ⟨t0, d0, a1, a2, a3, a4, c1, c2, c3, c4⟩ := SelectBound_fields false s
  obtain ⟨t0', -, a1', a2', a3', a4', c1', c2', c3', c4'⟩ :=
    SelectBound_fields false (SelectBound false s)
  have hd : (SelectBound false s).DELRPG = 0 := by rw [d0, h]
  simp only [selActive, selCopy, actives, copies, t0', a1', a2', a3', a4', c1', c2', c3',
    c4', hd, t0, a1, a2, a3, a4, c1, c2, c3, c4, h, stepCopy]
  by_cases h0 : s.TargetChange = 0
  · simp [h0]
  · by_cases h1 : s.TargetChange = 1
    · simp [h1]
    · by_cases h2 : s.TargetChange = 2
      · simp [h2]
      · simp [h0, h1, h2]

/-- Witness of C5: confirming the uncommitted value 42 of the upper temperature bound. -/
theorem confirm_commits_and_is_idempotent_witness :
    editedState.DELRPG = 0 ∧
    selActive (SelectBound false editedState) = selCopy (SelectBound false editedState) ∧
    actives (SelectBound false (SelectBound false editedState)) =
      actives (SelectBound false editedState) ∧
    copies (SelectBound false (SelectBound false editedState)) =
      copies (SelectBound false editedState) ∧
    (SelectBound false (SelectBound false editedState)).TargetChange =
      (SelectBound false editedState).TargetChange :=
  ⟨rfl, confirm_commits_and_is_idempotent editedState rfl⟩

/-! ## Confirm, target selection and rotary decoding -/

/-- Counterexample to C6: with the pushbutton held down over two consecutive passes
(encoder turned back one step on the first), the first pass commits 50 and steps the
working copy to 49, and the second pass, on which the button is merely still pressed,
commits again: the active `MaxTemp` goes from 50 to 49. -/
theorem confirm_is_level_counterexample :
    heldButtonInput.RB0 = false ∧
    (tick (fun _ => 0) heldButtonInput (initState 0)).MaxTemp = 50 ∧
    (tick (fun _ => 0) heldButtonInput
      (tick (fun _ => 0) heldButtonInput (initState 0))).MaxTemp = 49 := by
  have e1 : thresholdState (tick (fun _ => 0) heldButtonInput (initState 0)) =
      ((50, -10, 100, 0), (49, -10, 100, 0), 0) := by
    rw [thresholdState_tick]
    decide
  refine ⟨rfl, congrArg (fun v => v.1.1) e1, ?_⟩
  have hout : DetectTarget (DetectTouch 0 0
      (tick (fun _ => 0) heldButtonInput (initState 0))) =
      DetectTouch 0 0 (tick (fun _ => 0) heldButtonInput (initState 0)) :=
    DetectTarget_outside _ (by decide) (by decide) (by decide) (by decide)
  have e2 := thresholdState_tick (fun _ => 0) heldButtonInput
    (tick (fun _ => 0) heldButtonInput (initState 0))
  have e3 := thresholdState_RPG 8 (DetectTouch 0 0
    (tick (fun _ => 0) heldButtonInput (initState 0)))
  have e4 : thresholdState (DetectTouch 0 0
      (tick (fun _ => 0) heldButtonInput (initState 0))) =
      ((50, -10, 100, 0), (49, -10, 100, 0), 0) := e1
  rw [e4] at e3
  obtain ⟨-, -, hM, -⟩ := SelectBound_fields false (RPG 8 (DetectTouch 0 0
    (tick (fun _ => 0) heldButtonInput (initState 0))))
  have hT : (RPG 8 (DetectTouch 0 0
      (tick (fun _ => 0) heldButtonInput (initState 0)))).TargetChange = 0 :=
    congrArg (fun v => v.2.2) e3
  have hC : (RPG 8 (DetectTouch 0 0
      (tick (fun _ => 0) heldButtonInput (initState 0)))).MaxTempCpy = 49 :=
    congrArg (fun v => v.2.1.1) e3
  have e5 : (tick (fun _ => 0) heldButtonInput
      (tick (fun _ => 0) heldButtonInput (initState 0))).MaxTemp =
      (editTick heldButtonInput
        (tick (fun _ => 0) heldButtonInput (initState 0))).MaxTemp :=
    congrArg (fun v => v.1.1) e2
  rw [e5]
  show (SelectBound false (RPG 8 (DetectTarget (DetectTouch 0 0
    (tick (fun _ => 0) heldButtonInput (initState 0)))))).MaxTemp = 49
  rw [hout, hM, hT, hC]
  rfl

/-- C6, as amended. The confirm is taken from the level of the pushbutton: whenever
`SelectBound` runs with the button pressed, also right after a call on which it was
already pressed, the selected active value becomes the selected working copy as it was
before this call's step; with the button released no active value changes. -/
theorem confirm_is_level_triggered (s : State) (b0 : Bool) :
    selActive (SelectBound false s) = selCopy s ∧
    selActive (SelectBound false (SelectBound b0 s)) = selCopy (SelectBound b0 s) ∧
    actives (SelectBound true s) = actives s := by
  have key : ∀ t : State, selActive (SelectBound false t) = selCopy t := by
    intro t
    obtain ⟨t0, -, a1, a2, a3, a4, -⟩ := SelectBound_fields false t
    simp only [selActive, selCopy, t0, a1, a2, a3, a4]
    by_cases h0 : t.TargetChange = 0
    · simp [h0]
    · by_cases h1 : t.TargetChange = 1
      · simp [h1]
      · by_cases h2 : t.TargetChange = 2
        · simp [h2]
        · simp [h0, h1, h2]
  exact ⟨key s, key _, actives_SelectBound_released s⟩

/-- C7. Target selection on a hit: a touch inside one of the four boxes (bounds included)
selects that box's threshold and resets its working copy to its active value, while the
four active values and the other three working copies stay as they were. -/
theorem target_selected_on_hit (x y : Int) (s : State) :
    (inRect x y 5 53 40 69 →
      (touchAt x y s).TargetChange = 0 ∧ (touchAt x y s).MaxTempCpy = s.MaxTemp ∧
      actives (touchAt x y s) = actives s ∧
      (touchAt x y s).MaxHumidCpy = s.MaxHumidCpy ∧
      (touchAt x y s).MinTempCpy = s.MinTempCpy ∧
      (touchAt x y s).MinHumidCpy = s.MinHumidCpy) ∧
    (inRect x y 155 53 190 69 →
      (touchAt x y s).TargetChange = 1 ∧ (touchAt x y s).MaxHumidCpy = s.MaxHumid ∧
      actives (touchAt x y s) = actives s ∧
      (touchAt x y s).MaxTempCpy = s.MaxTempCpy ∧
      (touchAt x y s).MinTempCpy = s.MinTempCpy ∧
      (touchAt x y s).MinHumidCpy = s.MinHumidCpy) ∧
    (inRect x y 5 77 40 93 →
      (touchAt x y s).TargetChange = 2 ∧ (touchAt x y s).MinTempCpy = s.MinTemp ∧
      actives (touchAt x y s) = actives s ∧
      (touchAt x y s).MaxTempCpy = s.MaxTempCpy ∧
      (touchAt x y s).MaxHumidCpy = s.MaxHumidCpy ∧
      (touchAt x y s).MinHumidCpy = s.MinHumidCpy) ∧
    (inRect x y 155 77 190 93 →
      (touchAt x y s).TargetChange = 3 ∧ (touchAt x y s).MinHumidCpy = s.MinHumid ∧
      actives (touchAt x y s) = actives s ∧
      (touchAt x y s).MaxTempCpy = s.MaxTempCpy ∧
      (touchAt x y s).MaxHumidCpy = s.MaxHumidCpy ∧
      (touchAt x y s).MinTempCpy = s.MinTempCpy) := by
  have h := thresholdState_DetectTarget (DetectTouch x y s)
  have hx : (DetectTouch x y s).tsx = x := rfl
  have hy : (DetectTouch x y s).tsy = y := rfl
  rw [hx, hy] at h
  have hth : thresholdState (DetectTouch x y s) = thresholdState s := rfl
  have hac : actives (DetectTouch x y s) = actives s := rfl
  have c1 : (DetectTouch x y s).MaxTempCpy = s.MaxTempCpy := rfl
  have c2 : (DetectTouch x y s).MinTempCpy = s.MinTempCpy := rfl
  have c3 : (DetectTouch x y s).MaxHumidCpy = s.MaxHumidCpy := rfl
  have c4 : (DetectTouch x y s).MinHumidCpy = s.MinHumidCpy := rfl
  have a1 : (DetectTouch x y s).MaxTemp = s.MaxTemp := rfl
  have a2 : (DetectTouch x y s).MinTemp = s.MinTemp := rfl
  have a3 : (DetectTouch x y s).MaxHumid = s.MaxHumid := rfl
  have a4 : (DetectTouch x y s).MinHumid = s.MinHumid := rfl
  rw [hth, hac, c1, c2, c3, c4, a1, a2, a3, a4] at h
  have hT : (touchAt x y s).TargetChange = (thresholdState (touchAt x y s)).2.2 := rfl
  have hA : actives (touchAt x y s) = (thresholdState (touchAt x y s)).1 := rfl
  have k1 : (touchAt x y s).MaxTempCpy = (thresholdState (touchAt x y s)).2.1.1 := rfl
  have k2 : (touchAt x y s).MinTempCpy = (thresholdState (touchAt x y s)).2.1.2.1 := rfl
  have k3 : (touchAt x y s).MaxHumidCpy = (thresholdState (touchAt x y s)).2.1.2.2.1 := rfl
  have k4 : (touchAt x y s).MinHumidCpy = (thresholdState (touchAt x y s)).2.1.2.2.2 := rfl
  rw [hT, hA, k1, k2, k3, k4]
  unfold touchAt
  rw [h]
  unfold inRect
  refine ⟨?_, ?_, ?_, ?_⟩ <;> intro hin <;> split_ifs <;> first
    | omega
    | exact ⟨rfl, rfl, rfl, rfl, rfl, rfl⟩

/-- Witness of C7: one touch in each of the four boxes, from a state with an uncommitted
edit. -/
theorem target_selected_on_hit_witness :
    (inRect 5 53 5 53 40 69 ∧ (touchAt 5 53 editedState).TargetChange = 0 ∧
      (touchAt 5 53 editedState).MaxTempCpy = 50) ∧
    (inRect 190 69 155 53 190 69 ∧ (touchAt 190 69 editedState).TargetChange = 1) ∧
    (inRect 20 80 5 77 40 93 ∧ (touchAt 20 80 editedState).TargetChange = 2) ∧
    (inRect 160 90 155 77 190 93 ∧ (touchAt 160 90 editedState).TargetChange = 3) :=
  ⟨⟨by decide,
     ((target_selected_on_hit 5 53 editedState).1 (by decide)).1,
     ((target_selected_on_hit 5 53 editedState).1 (by decide)).2.1⟩,
   ⟨by decide, ((target_selected_on_hit 190 69 editedState).2.1 (by decide)).1⟩,
   ⟨by decide, ((target_selected_on_hit 20 80 editedState).2.2.1 (by decide)).1⟩,
   ⟨by decide, ((target_selected_on_hit 160 90 editedState).2.2.2 (by decide)).1⟩⟩

/-- C8. A touch outside every box is a no-op: `DetectTarget` returns the state it was
given (selection, working copies, active values, text buffers and output trace
included), so it issues no display call; and a touch in the box of the upper
temperature bound followed by a touch outside every box leaves that bound selected. -/
theorem touch_outside_is_noop (x y x0 y0 : Int) (s : State)
    (h1 : ¬ inRect x y 5 53 40 69) (h2 : ¬ inRect x y 155 53 190 69)
    (h3 : ¬ inRect x y 5 77 40 93) (h4 : ¬ inRect x y 155 77 190 93)
    (h0 : inRect x0 y0 5 53 40 69) :
    touchAt x y s = DetectTouch x y s ∧
    newEvents (DetectTouch x y s) (touchAt x y s) = [] ∧
    (touchAt x y (touchAt x0 y0 s)).TargetChange = 0 := by
  have key : ∀ t : State, touchAt x y t = DetectTouch x y t :=
    fun t => DetectTarget_outside (DetectTouch x y t) h1 h2 h3 h4
  refine ⟨key s, ?_, ?_⟩
  · rw [key s]
    simp [newEvents]
  · rw [key]
    show (touchAt x0 y0 s).TargetChange = 0
    have h := congrArg (fun v => v.2.2) (thresholdState_DetectTarget (DetectTouch x0 y0 s))
    have hx : (DetectTouch x0 y0 s).tsx = x0 := rfl
    have hy : (DetectTouch x0 y0 s).tsy = y0 := rfl
    rw [hx, hy, if_pos h0] at h
    exact h

/-- Witness of C8: a touch at `(10, 60)` in the box of the upper temperature bound, then a
touch at `(100, 100)` outside every box. -/
theorem touch_outside_is_noop_witness :
    touchAt 100 100 editedState = DetectTouch 100 100 editedState ∧
    newEvents (DetectTouch 100 100 editedState) (touchAt 100 100 editedState) = [] ∧
    (touchAt 100 100 (touchAt 10 60 editedState)).TargetChange = 0 :=
  touch_outside_is_noop 100 100 10 60 editedState (by decide) (by decide) (by decide)
    (by decide) (by decide)

/-- C9. Rotary decode result: `RPG` sets `DELRPG` to -1, 0 or +1, to 0 exactly when the new
sample `PORTB & 0x000C` equals the previous sample `OLDRPG`, and leaves `OLDRPG` equal
to the new sample. -/
theorem rotary_decode_result (PORTB : Nat) (s : State) :
    ((RPG PORTB s).DELRPG = -1 ∨ (RPG PORTB s).DELRPG = 0 ∨ (RPG PORTB s).DELRPG = 1) ∧
    ((RPG PORTB s).DELRPG = 0 ↔ PORTB &&& 0x000C = s.OLDRPG) ∧
    (RPG PORTB s).OLDRPG = PORTB &&& 0x000C := by
  obtain ⟨ho, hd⟩ := RPG_fields PORTB s
  refine ⟨?_, ?_, ho⟩
  · rw [hd]
    split_ifs <;> simp
  · rw [hd]
    split_ifs <;> simp_all

/-- C10. Rotary direction on a proper quadrature rotation: each single-line transition of
the cycle 0 -> 4 -> 12 -> 8 -> 0 of samples gives `DELRPG = +1`, each transition of the
reverse cycle gives `DELRPG = -1`, an unchanged sample gives 0, and for two samples
that differ in exactly one line the step of the transition one way is the negation of
the step the other way. -/
theorem rotary_direction_on_quadrature (P Q : Nat) (s t : State) :
    ((s.OLDRPG, P &&& 0x000C) ∈ [(0, 4), (4, 12), (12, 8), (8, 0)] →
      (RPG P s).DELRPG = 1) ∧
    ((s.OLDRPG, P &&& 0x000C) ∈ [(4, 0), (12, 4), (8, 12), (0, 8)] →
      (RPG P s).DELRPG = -1) ∧
    (P &&& 0x000C = s.OLDRPG → (RPG P s).DELRPG = 0) ∧
    (s.OLDRPG = Q &&& 0x000C → t.OLDRPG = P &&& 0x000C →
      ((P &&& 0x000C) ^^^ (Q &&& 0x000C) = 4 ∨ (P &&& 0x000C) ^^^ (Q &&& 0x000C) = 8) →
      (RPG P s).DELRPG = -(RPG Q t).DELRPG) := by
  obtain ⟨-, hs⟩ := RPG_fields P s
  obtain ⟨-, ht⟩ := RPG_fields Q t
  refine ⟨?_, ?_, ?_, ?_⟩
  · intro h
    simp only [List.mem_cons, Prod.mk.injEq, List.mem_singleton, List.not_mem_nil,
      or_false] at h
    rw [hs]
    rcases h with ⟨a, b⟩ | ⟨a, b⟩ | ⟨a, b⟩ | ⟨a, b⟩ <;> rw [a, b] <;> decide
  · intro h
    simp only [List.mem_cons, Prod.mk.injEq, List.mem_singleton, List.not_mem_nil,
      or_false] at h
    rw [hs]
    rcases h with ⟨a, b⟩ | ⟨a, b⟩ | ⟨a, b⟩ | ⟨a, b⟩ <;> rw [a, b] <;> decide
  · intro h
    rw [hs, if_neg (by simpa using h)]
  · intro h1 h2 h3
    rw [hs, ht, h1, h2]
    rcases land_twelve_cases P with p | p | p | p <;>
      rcases land_twelve_cases Q with q | q | q | q <;>
      rw [p, q] at h3 ⊢ <;> revert h3 <;> decide

/-- Witness of C10: from the sample 00 the clockwise neighbour 01 (`PORTB = 4`) gives +1,
the counter-clockwise neighbour 10 (`PORTB = 8`) gives -1, and the transition back
gives the negated step. -/
theorem rotary_direction_on_quadrature_witness :
    (RPG 4 (initState 0)).DELRPG = 1 ∧ (RPG 8 (initState 0)).DELRPG = -1 ∧
    (RPG 0 (initState 0)).DELRPG = 0 ∧
    (RPG 4 (initState 0)).DELRPG = -(RPG 0 (initState 4)).DELRPG :=
  ⟨(rotary_direction_on_quadrature 4 0 (initState 0) (initState 4)).1 (by decide),
   (rotary_direction_on_quadrature 8 0 (initState 0) (initState 4)).2.1 (by decide),
   (rotary_direction_on_quadrature 0 0 (initState 0) (initState 4)).2.2.1 (by decide),
   (rotary_direction_on_quadrature 4 0 (initState 0) (initState 4)).2.2.2 (by decide)
     (by decide) (by decide)⟩

/-! ## Shared lemmas: the sensor readers -/

theorem DewPoint_eq (ln : ℚ → ℚ) (s : State) :
    DewPoint ln s =
      { s with
        DewPoint_prevRead :=
          if truncQ (dewPointFormula ln s.CurrentTemp s.CurrentHumidity) ≠ s.DewPoint_prevRead
          then toChar (truncQ (dewPointFormula ln s.CurrentTemp s.CurrentHumidity))
          else s.DewPoint_prevRead
        CurDewPointStr :=
          DewPoint_text s.CurDewPointStr (dewPointFormula ln s.CurrentTemp s.CurrentHumidity)
        out := s.out ++
          (Event.Display Color.BKGD (DewPoint_text s.CurDewPointStr
              (dewPointFormula ln s.CurrentTemp s.CurrentHumidity)) ::
            if truncQ (dewPointFormula ln s.CurrentTemp s.CurrentHumidity) ≠
                s.DewPoint_prevRead
            then [Event.DrawRectangle 5 149 120 165 Color.BKGD,
              Event.DrawRectangle 5 149
                (wrap16 (5 + wrap16 (2 * wrap16
                  (truncQ (dewPointFormula ln s.CurrentTemp s.CurrentHumidity) + 10))))
                165 Color.LIME]
            else []) } := by
  unfold DewPoint
  by_cases h : truncQ (dewPointFormula ln s.CurrentTemp s.CurrentHumidity) =
      s.DewPoint_prevRead
  · simp [h, Display, DrawRectangle]
  · simp [h, Display, DrawRectangle]

theorem ReadTemp_eq (w : Nat) (s : State) :
    ReadTemp w s =
      if wrap16 (s.TEMP_COUNT + 1) = 100 then
        { s with
          TEMP_COUNT := 0
          CurrentTemp := temperatureValue w
          ReadTemp_prevRead :=
            if s.ReadTemp_prevRead ≠ truncQ (temperatureValue w)
            then truncQ (temperatureValue w) else s.ReadTemp_prevRead
          CurTempStr := ReadTemp_text s.CurTempStr (temperatureValue w)
          out := s.out ++
            ([Event.sht15_start, Event.sht15_command 3, Event.sht15_read_byte16 w,
              Event.Display Color.BKGD (ReadTemp_text s.CurTempStr (temperatureValue w))] ++
            if s.ReadTemp_prevRead ≠ truncQ (temperatureValue w)
            then [Event.DrawRectangle 5 101 135 117 Color.BKGD,
              Event.DrawRectangle 5 101
                (wrap16 (5 + wrap16 (2 * wrap16 (truncQ (temperatureValue w) + 10))))
                117 Color.LIME]
            else []) }
      else { s with TEMP_COUNT := wrap16 (s.TEMP_COUNT + 1) } := by
  unfold ReadTemp
  by_cases hc : wrap16 (s.TEMP_COUNT + 1) = 100
  · by_cases h : s.ReadTemp_prevRead = truncQ (temperatureValue w)
    · simp [hc, h, Display, DrawRectangle]
    · simp [hc, h, Display, DrawRectangle]
  · simp [hc]

theorem ReadHumidity_eq (ln : ℚ → ℚ) (w : Nat) (s : State) :
    ReadHumidity ln w s =
      if wrap16 (s.HUMID_COUNT + 1) = 100 then
        DewPoint ln
          { s with
            HUMID_COUNT := 0
            CurrentHumidity := humidityValue w
            ReadHumidity_prevRead :=
              if truncQ (humidityValue w) ≠ s.ReadHumidity_prevRead
              then truncQ (humidityValue w) else s.ReadHumidity_prevRead
            CurHumidStr := ReadHumidity_text s.CurHumidStr (humidityValue w)
            out := s.out ++
              ([Event.sht15_start, Event.sht15_command 5, Event.sht15_read_byte16 w,
                Event.Display Color.BKGD
                  (ReadHumidity_text s.CurHumidStr (humidityValue w))] ++
              if truncQ (humidityValue w) ≠ s.ReadHumidity_prevRead
              then [Event.DrawRectangle 5 125 135 141 Color.BKGD,
                Event.DrawRectangle 5 125 (wrap16 (5 + truncQ (humidityValue w))) 141
                  Color.LIME]
              else []) }
      else { s with HUMID_COUNT := wrap16 (s.HUMID_COUNT + 1) } := by
  unfold ReadHumidity
  by_cases hc : wrap16 (s.HUMID_COUNT + 1) = 100
  · by_cases h : truncQ (humidityValue w) = s.ReadHumidity_prevRead
    · simp [hc, h, Display, DrawRectangle]
    · simp [hc, h, Display, DrawRectangle]
  · simp [hc]

theorem SelectBound_eq (b : Bool) (s : State) :
    SelectBound b s =
      if s.TargetChange = 0 then
        { s with
          IsConfirmed := 0
          MaxTemp := if b then s.MaxTemp else s.MaxTempCpy
          MaxTempCpy := stepCopy (-10) 50 s.DELRPG s.MaxTempCpy
          TargetStr1 := writeTempField s.TargetStr1 (stepCopy (-10) 50 s.DELRPG s.MaxTempCpy)
          out := s.out ++ [Event.Display Color.BKGD
            (writeTempField s.TargetStr1 (stepCopy (-10) 50 s.DELRPG s.MaxTempCpy))] }
      else if s.TargetChange = 1 then
        { s with
          IsConfirmed := 0
          MaxHumid := if b then s.MaxHumid else s.MaxHumidCpy
          MaxHumidCpy := stepCopy 0 100 s.DELRPG s.MaxHumidCpy
          TargetStr2 := writeHumidField s.TargetStr2 (stepCopy 0 100 s.DELRPG s.MaxHumidCpy)
          out := s.out ++ [Event.Display Color.BKGD
            (writeHumidField s.TargetStr2 (stepCopy 0 100 s.DELRPG s.MaxHumidCpy))] }
      else if s.TargetChange = 2 then
        { s with
          IsConfirmed := 0
          MinTemp := if b then s.MinTemp else s.MinTempCpy
          MinTempCpy := stepCopy (-10) 50 s.DELRPG s.MinTempCpy
          TargetStr3 := writeTempField s.TargetStr3 (stepCopy (-10) 50 s.DELRPG s.MinTempCpy)
          out := s.out ++ [Event.Display Color.BKGD
            (writeTempField s.TargetStr3 (stepCopy (-10) 50 s.DELRPG s.MinTempCpy))] }
      else
        { s with
          IsConfirmed := 0
          MinHumid := if b then s.MinHumid else s.MinHumidCpy
          MinHumidCpy := stepCopy 0 100 s.DELRPG s.MinHumidCpy
          TargetStr4 := writeHumidField s.TargetStr4 (stepCopy 0 100 s.DELRPG s.MinHumidCpy)
          out := s.out ++ [Event.Display Color.BKGD
            (writeHumidField s.TargetStr4 (stepCopy 0 100 s.DELRPG s.MinHumidCpy))] } := by
  by_cases h0 : s.TargetChange = 0
  · cases b <;> simp [SelectBound, Display, stepCopy, h0] <;> split_ifs <;> simp_all
  · by_cases h1 : s.TargetChange = 1
    · cases b <;> simp [SelectBound, Display, stepCopy, h0, h1] <;> split_ifs <;> simp_all
    · by_cases h2 : s.TargetChange = 2
      · cases b <;> simp [SelectBound, Display, stepCopy, h0, h1, h2] <;> split_ifs <;>
          simp_all
      · cases b <;> simp [SelectBound, Display, stepCopy, h0, h1, h2] <;> split_ifs <;>
          simp_all

/-! ## Shared lemmas: the conversion counters and the bus commands -/

theorem busCommands_append (a b : List Event) :
    busCommands (a ++ b) = busCommands a ++ busCommands b := by
  simp [busCommands, List.filterMap_append]

theorem busCommands_edgeEvents (o n : Bool) (a b : List Int) :
    busCommands (edgeEvents o n a b) = [] := by
  unfold edgeEvents
  split_ifs <;> rfl

theorem cadenceView_DetectTarget (s : State) : cadenceView (DetectTarget s) = cadenceView s := by
  have e1 : ∀ t, cadenceView (DetectTarget_MaxTemp t) = cadenceView t := by
    intro t
    rw [DetectTarget_MaxTemp_eq]
    split_ifs
    · simp [cadenceView, busCommands]
    · rfl
  have e2 : ∀ t, cadenceView (DetectTarget_MaxHumid t) = cadenceView t := by
    intro t
    rw [DetectTarget_MaxHumid_eq]
    split_ifs
    · simp [cadenceView, busCommands]
    · rfl
  have e3 : ∀ t, cadenceView (DetectTarget_MinTemp t) = cadenceView t := by
    intro t
    rw [DetectTarget_MinTemp_eq]
    split_ifs
    · simp [cadenceView, busCommands]
    · rfl
  have e4 : ∀ t, cadenceView (DetectTarget_MinHumid t) = cadenceView t := by
    intro t
    rw [DetectTarget_MinHumid_eq]
    split_ifs
    · simp [cadenceView, busCommands]
    · rfl
  rw [DetectTarget, e4, e3, e2, e1]

theorem cadenceView_RPG (p : Nat) (s : State) : cadenceView (RPG p s) = cadenceView s := by
  simp [cadenceView, RPG]
  split_ifs <;> simp

theorem cadenceView_SelectBound (b : Bool) (s : State) :
    cadenceView (SelectBound b s) = cadenceView s := by
  rw [SelectBound_eq]
  split_ifs <;> simp [cadenceView, busCommands_append] <;> rfl

theorem cadenceView_editTick (i : Input) (s : State) :
    cadenceView (editTick i s) = cadenceView s := by
  unfold editTick
  rw [cadenceView_SelectBound, cadenceView_RPG, cadenceView_DetectTarget]
  rfl

theorem cadenceView_CheckAlerts (s : State) : cadenceView (CheckAlerts s) = cadenceView s := by
  have e1 : ∀ t, cadenceView (CheckAlerts_MinTemp t) = cadenceView t := by
    intro t
    rw [CheckAlerts_MinTemp_eq]
    simp [cadenceView, busCommands_append, busCommands_edgeEvents]
  have e2 : ∀ t, cadenceView (CheckAlerts_MaxTemp t) = cadenceView t := by
    intro t
    rw [CheckAlerts_MaxTemp_eq]
    simp [cadenceView, busCommands_append, busCommands_edgeEvents]
  have e3 : ∀ t, cadenceView (CheckAlerts_MaxHumid t) = cadenceView t := by
    intro t
    rw [CheckAlerts_MaxHumid_eq]
    simp [cadenceView, busCommands_append, busCommands_edgeEvents]
  have e4 : ∀ t, cadenceView (CheckAlerts_MinHumid t) = cadenceView t := by
    intro t
    rw [CheckAlerts_MinHumid_eq]
    simp [cadenceView, busCommands_append, busCommands_edgeEvents]
  have e5 : ∀ t, cadenceView (CheckAlerts_alarm t) = cadenceView t := by
    intro t
    unfold CheckAlerts_alarm
    split_ifs <;> rfl
  rw [CheckAlerts, e5, e4, e3, e2, e1]

theorem cadenceView_DewPoint (ln : ℚ → ℚ) (s : State) :
    cadenceView (DewPoint ln s) = cadenceView s := by
  rw [DewPoint_eq]
  simp only [cadenceView, busCommands_append]
  split_ifs <;> simp [busCommands]

theorem cadenceView_ReadHumidity (ln : ℚ → ℚ) (w : Nat) (s : State) :
    cadenceView (ReadHumidity ln w s) =
      if wrap16 (s.HUMID_COUNT + 1) = 100 then
        (0, s.TEMP_COUNT, busCommands s.out ++ [5])
      else (wrap16 (s.HUMID_COUNT + 1), s.TEMP_COUNT, busCommands s.out) := by
  rw [ReadHumidity_eq]
  by_cases hc : wrap16 (s.HUMID_COUNT + 1) = 100
  · rw [if_pos hc, if_pos hc, cadenceView_DewPoint]
    simp only [cadenceView, busCommands_append]
    split_ifs <;> simp [busCommands]
  · rw [if_neg hc, if_neg hc]
    rfl

theorem cadenceView_ReadTemp (w : Nat) (s : State) :
    cadenceView (ReadTemp w s) =
      if wrap16 (s.TEMP_COUNT + 1) = 100 then
        (s.HUMID_COUNT, 0, busCommands s.out ++ [3])
      else (s.HUMID_COUNT, wrap16 (s.TEMP_COUNT + 1), busCommands s.out) := by
  rw [ReadTemp_eq]
  by_cases hc : wrap16 (s.TEMP_COUNT + 1) = 100
  · rw [if_pos hc, if_pos hc]
    simp only [cadenceView, busCommands_append]
    split_ifs <;> simp [busCommands]
  · rw [if_neg hc, if_neg hc]
    rfl

theorem cadenceView_tick (ln : ℚ → ℚ) (i : Input) (s : State) :
    cadenceView (tick ln i s) =
      ((if wrap16 (s.HUMID_COUNT + 1) = 100 then 0 else wrap16 (s.HUMID_COUNT + 1)),
       (if wrap16 (s.TEMP_COUNT + 1) = 100 then 0 else wrap16 (s.TEMP_COUNT + 1)),
       busCommands s.out ++ (if wrap16 (s.HUMID_COUNT + 1) = 100 then [5] else []) ++
         (if wrap16 (s.TEMP_COUNT + 1) = 100 then [3] else [])) := by
  have he := cadenceView_editTick i s
  have hh := cadenceView_ReadHumidity ln i.humidWord (editTick i s)
  have ht := cadenceView_ReadTemp i.tempWord (ReadHumidity ln i.humidWord (editTick i s))
  unfold tick
  rw [cadenceView_CheckAlerts, ht]
  simp only [cadenceView, Prod.mk.injEq] at he hh ht ⊢
  obtain ⟨he1, he2, he3⟩ := he
  rw [he1, he2, he3] at hh
  by_cases c1 : wrap16 (s.HUMID_COUNT + 1) = 100 <;>
    by_cases c2 : wrap16 (s.TEMP_COUNT + 1) = 100 <;>
    simp only [c1, c2, if_true, if_false, Prod.mk.injEq] at hh ⊢ <;>
    obtain ⟨hh1, hh2, hh3⟩ := hh <;>
    simp [hh1, hh2, hh3, c2]

theorem run_snoc (ln : ℚ → ℚ) (is : List Input) (i : Input) (s : State) :
    run ln (is ++ [i]) s = tick ln i (run ln is s) := by
  simp [run, List.foldl_append]

theorem counters_run (ln : ℚ → ℚ) (P : Nat) (is : List Input) :
    (run ln is (initState P)).HUMID_COUNT = ((is.length % 100 : Nat) : Int) ∧
    (run ln is (initState P)).TEMP_COUNT = (((is.length + 50) % 100 : Nat) : Int) := by
  induction is using List.reverseRecOn with
  | nil => exact ⟨rfl, rfl⟩
  | append_singleton is i ih =>
    obtain ⟨ih1, ih2⟩ := ih
    have h := cadenceView_tick ln i (run ln is (initState P))
    simp only [cadenceView, Prod.mk.injEq] at h
    obtain ⟨h1, h2, -⟩ := h
    rw [run_snoc, h1, h2, ih1, ih2, List.length_append, List.length_singleton]
    unfold wrap16
    constructor <;> split_ifs <;> omega

/-! ## Shared lemmas: the published readings -/

theorem truncQ_of_floor (q : ℚ) (n : Int) (h0 : 0 ≤ q) (h1 : (n : ℚ) ≤ q) (h2 : q < n + 1)
    (h3 : -32768 ≤ n) (h4 : n ≤ 32767) : truncQ q = n := by
  unfold truncQ
  rw [if_pos h0, Int.floor_eq_iff.mpr ⟨h1, h2⟩, wrap16_of_range n h3 h4]

theorem ReadTemp_CurrentTemp (w : Nat) (s : State) :
    (ReadTemp w s).CurrentTemp =
      if wrap16 (s.TEMP_COUNT + 1) = 100 then temperatureValue w else s.CurrentTemp := by
  rw [ReadTemp_eq]
  by_cases hc : wrap16 (s.TEMP_COUNT + 1) = 100
  · rw [if_pos hc, if_pos hc]
  · rw [if_neg hc, if_neg hc]

theorem ReadHumidity_CurrentHumidity (ln : ℚ → ℚ) (w : Nat) (s : State) :
    (ReadHumidity ln w s).CurrentHumidity =
      if wrap16 (s.HUMID_COUNT + 1) = 100 then humidityValue w else s.CurrentHumidity := by
  rw [ReadHumidity_eq]
  by_cases hc : wrap16 (s.HUMID_COUNT + 1) = 100
  · rw [if_pos hc, if_pos hc, DewPoint_eq]
  · rw [if_neg hc, if_neg hc]

theorem temperatureValue_of_small (w : Nat) (h : w ≤ 32767) :
    temperatureValue w = temperatureFormula w := by
  unfold temperatureValue temperatureFormula
  rw [wrap16_of_range _ (by omega) (by omega)]
  simp

theorem temperatureValue_of_large (w : Nat) (h1 : 32768 ≤ w) (h2 : w ≤ 65535) :
    temperatureValue w = temperatureFormula w - 65536 / 100 := by
  unfold temperatureValue temperatureFormula
  have hw : wrap16 (w : Int) = (w : Int) - 65536 := by
    unfold wrap16
    omega
  rw [hw]
  push_cast
  ring

theorem magnus_saturation {α : Type} [Field α] (Tn m T : α) (hT : Tn ≠ 0) (hm : m ≠ 0)
    (hD : Tn + T ≠ 0) : Tn * ((m * T / (Tn + T)) / (m - m * T / (Tn + T))) = T := by
  have e : m - m * T / (Tn + T) = m * Tn / (Tn + T) := by
    field_simp
    ring
  rw [e]
  field_simp
  ring

theorem dewPointFormula_saturation {α : Type} [Field α] [CharZero α] (ln : α → α)
    (hln : ln 1 = 0) (T : α) (h : 24312 / 100 + T ≠ 0) :
    dewPointFormula ln T 100 = T := by
  unfold dewPointFormula
  have h100 : (100 : α) / 100 = 1 := by norm_num
  simp only [h100, hln, zero_add, sub_zero]
  exact magnus_saturation _ _ T (by norm_num) (by norm_num) h

/-! ## Sensor conversions and the dew point -/

/-- C11. Humidity conversion, evaluated at the raw code 1000 on a conversion call
(`HUMID_COUNT = 99` before the call): the product `temp_response*temp_response` is
formed in 16-bit `int` arithmetic and wraps to 16960, so `ReadHumidity` stores
34.62614032 in `CurrentHumidity`, whereas `c1 + c2*r + c3*r^2` with the mathematical
square is 33.0577; the two differ by more than 1.5. -/
theorem humidity_square_wraps_at_1000 :
    wrap16 (humidDue.HUMID_COUNT + 1) = 100 ∧
    wrap16 (1000 * 1000) = 16960 ∧
    (ReadHumidity (fun _ => 0) 1000 humidDue).CurrentHumidity = 3462614032 / 100000000 ∧
    humidityFormula 1000 = 330577 / 10000 ∧
    (ReadHumidity (fun _ => 0) 1000 humidDue).CurrentHumidity - humidityFormula 1000 >
      15 / 10 := by
  have hc : wrap16 (humidDue.HUMID_COUNT + 1) = 100 := by decide
  have hv : humidityValue 1000 = 3462614032 / 100000000 := by
    norm_num [humidityValue, wrap16]
  have hf : humidityFormula 1000 = 330577 / 10000 := by
    norm_num [humidityFormula]
  refine ⟨hc, by decide, ?_, hf, ?_⟩
  · rw [ReadHumidity_CurrentHumidity, if_pos hc, hv]
  · rw [ReadHumidity_CurrentHumidity, if_pos hc, hv, hf]
    norm_num

/-- Counterexample to C12 as stated: the raw code 40000 does not fit the 16-bit `int`
variable `response`; it is held as 40000 - 65536, and `ReadTemp` stores -295.06 in
`CurrentTemp`, whereas `-39.7 + 0.01*40000` is 360.3. -/
theorem temperature_code_above_int_range_counterexample :
    tempDue.TEMP_COUNT = 99 ∧
    (ReadTemp 40000 tempDue).CurrentTemp = -29506 / 100 ∧
    temperatureFormula 40000 = 3603 / 10 := by
  have hc : wrap16 (tempDue.TEMP_COUNT + 1) = 100 := by decide
  refine ⟨rfl, ?_, by norm_num [temperatureFormula]⟩
  rw [ReadTemp_CurrentTemp, if_pos hc]
  norm_num [temperatureValue, wrap16]

/-- C12, amended. Temperature conversion: on a conversion call of `ReadTemp`
(`TEMP_COUNT = 99` before the call) the value stored in `CurrentTemp` is
`-39.7 + 0.01*r` for every raw code `r` in `0 .. 32767`, the codes that the `int`
variable `response` holds unchanged; a code `r` in `32768 .. 65535` is held as
`r - 65536` and the stored value is `-39.7 + 0.01*(r - 65536)`. -/
theorem temperature_conversion_within_int (w : Nat) (s : State) (hc : s.TEMP_COUNT = 99) :
    (w ≤ 32767 → (ReadTemp w s).CurrentTemp = temperatureFormula w) ∧
    (32768 ≤ w → w ≤ 65535 →
      (ReadTemp w s).CurrentTemp = temperatureFormula w - 65536 / 100) := by
  have hc2 : wrap16 (s.TEMP_COUNT + 1) = 100 := by
    rw [hc]
    decide
  rw [ReadTemp_CurrentTemp, if_pos hc2]
  exact ⟨temperatureValue_of_small w, temperatureValue_of_large w⟩

/-- Witness of C12, amended: the codes 6000 and 40000 on the conversion call of
`tempDue`. -/
theorem temperature_conversion_within_int_witness :
    tempDue.TEMP_COUNT = 99 ∧ (6000 : Nat) ≤ 32767 ∧
    (ReadTemp 6000 tempDue).CurrentTemp = temperatureFormula (6000 : Nat) ∧
    (ReadTemp 40000 tempDue).CurrentTemp = temperatureFormula (40000 : Nat) - 65536 / 100 :=
  ⟨rfl, by decide, (temperature_conversion_within_int 6000 tempDue rfl).1 (by decide),
   (temperature_conversion_within_int 40000 tempDue rfl).2 (by decide) (by decide)⟩

/-- C13. Dew point at saturation: over the reals, with the natural logarithm, the
expression of `DewPoint` evaluated at `RH = 100` equals the temperature `T`, for every
`T` with `Tn + T ≠ 0`, in particular for every `T ≥ -39.7`; and `DewPoint` itself, given
a logarithm with `ln 1 = 0`, then writes the digits of the current temperature into the
dew point field. -/
theorem dew_point_at_saturation (T : ℝ) (ln : ℚ → ℚ) (s : State) :
    (24312 / 100 + T ≠ 0 → dewPointFormula Real.log T 100 = T) ∧
    (-397 / 10 ≤ T → dewPointFormula Real.log T 100 = T) ∧
    (ln 1 = 0 → s.CurrentHumidity = 100 → 24312 / 100 + s.CurrentTemp ≠ 0 →
      (DewPoint ln s).CurDewPointStr = DewPoint_text s.CurDewPointStr s.CurrentTemp) := by
  refine ⟨dewPointFormula_saturation Real.log Real.log_one T, ?_, ?_⟩
  · intro h
    refine dewPointFormula_saturation Real.log Real.log_one T ?_
    have : (0 : ℝ) < 24312 / 100 + T := by linarith
    exact ne_of_gt this
  · intro h1 h2 h3
    rw [DewPoint_eq, h2, dewPointFormula_saturation ln h1 s.CurrentTemp h3]

/-- Witness of C13: the temperature 20 degrees, over the reals and in the state with
`CurrentTemp = 20` and `CurrentHumidity = 100`. -/
theorem dew_point_at_saturation_witness :
    dewPointFormula Real.log 20 100 = 20 ∧
    (DewPoint (fun _ => 0)
        { initState 0 with CurrentTemp := 20, CurrentHumidity := 100 }).CurDewPointStr =
      DewPoint_text (initState 0).CurDewPointStr 20 :=
  ⟨(dew_point_at_saturation 20 (fun _ => 0) (initState 0)).1 (by norm_num),
   (dew_point_at_saturation 20 (fun _ => 0)
     { initState 0 with CurrentTemp := 20, CurrentHumidity := 100 }).2.2 rfl rfl
       (by norm_num)⟩

/-! ## Shared lemmas: the readings through one loop pass -/

theorem readingsView_DetectTarget (s : State) :
    readingsView (DetectTarget s) = readingsView s := by
  have e1 : ∀ t, readingsView (DetectTarget_MaxTemp t) = readingsView t := by
    intro t
    rw [DetectTarget_MaxTemp_eq]
    split_ifs <;> rfl
  have e2 : ∀ t, readingsView (DetectTarget_MaxHumid t) = readingsView t := by
    intro t
    rw [DetectTarget_MaxHumid_eq]
    split_ifs <;> rfl
  have e3 : ∀ t, readingsView (DetectTarget_MinTemp t) = readingsView t := by
    intro t
    rw [DetectTarget_MinTemp_eq]
    split_ifs <;> rfl
  have e4 : ∀ t, readingsView (DetectTarget_MinHumid t) = readingsView t := by
    intro t
    rw [DetectTarget_MinHumid_eq]
    split_ifs <;> rfl
  rw [DetectTarget, e4, e3, e2, e1]

theorem readingsView_RPG (p : Nat) (s : State) : readingsView (RPG p s) = readingsView s := by
  simp [readingsView, RPG]
  split_ifs <;> simp

theorem readingsView_SelectBound (b : Bool) (s : State) :
    readingsView (SelectBound b s) = readingsView s := by
  rw [SelectBound_eq]
  split_ifs <;> rfl

theorem readingsView_editTick (i : Input) (s : State) :
    readingsView (editTick i s) = readingsView s := by
  unfold editTick
  rw [readingsView_SelectBound, readingsView_RPG, readingsView_DetectTarget]
  rfl

theorem readingsView_CheckAlerts (s : State) :
    readingsView (CheckAlerts s) = readingsView s := by
  have e1 : ∀ t, readingsView (CheckAlerts_MinTemp t) = readingsView t := by
    intro t
    rw [CheckAlerts_MinTemp_eq]
    rfl
  have e2 : ∀ t, readingsView (CheckAlerts_MaxTemp t) = readingsView t := by
    intro t
    rw [CheckAlerts_MaxTemp_eq]
    rfl
  have e3 : ∀ t, readingsView (CheckAlerts_MaxHumid t) = readingsView t := by
    intro t
    rw [CheckAlerts_MaxHumid_eq]
    rfl
  have e4 : ∀ t, readingsView (CheckAlerts_MinHumid t) = readingsView t := by
    intro t
    rw [CheckAlerts_MinHumid_eq]
    rfl
  have e5 : ∀ t, readingsView (CheckAlerts_alarm t) = readingsView t := by
    intro t
    unfold CheckAlerts_alarm
    split_ifs <;> rfl
  rw [CheckAlerts, e5, e4, e3, e2, e1]

theorem readingsView_ReadTemp (w : Nat) (s : State) :
    readingsView (ReadTemp w s) =
      ((if wrap16 (s.TEMP_COUNT + 1) = 100 then temperatureValue w else s.CurrentTemp),
        s.CurrentHumidity, s.CurDewPointStr, s.DewPoint_prevRead) := by
  rw [ReadTemp_eq]
  by_cases hc : wrap16 (s.TEMP_COUNT + 1) = 100
  · rw [if_pos hc, if_pos hc]
    rfl
  · rw [if_neg hc, if_neg hc]
    rfl

theorem readingsView_ReadHumidity (ln : ℚ → ℚ) (w : Nat) (s : State) :
    readingsView (ReadHumidity ln w s) =
      if wrap16 (s.HUMID_COUNT + 1) = 100 then
        (s.CurrentTemp, humidityValue w,
          DewPoint_text s.CurDewPointStr (dewPointFormula ln s.CurrentTemp (humidityValue w)),
          if truncQ (dewPointFormula ln s.CurrentTemp (humidityValue w)) ≠ s.DewPoint_prevRead
          then toChar (truncQ (dewPointFormula ln s.CurrentTemp (humidityValue w)))
          else s.DewPoint_prevRead)
      else readingsView s := by
  rw [ReadHumidity_eq]
  by_cases hc : wrap16 (s.HUMID_COUNT + 1) = 100
  · rw [if_pos hc, if_pos hc, DewPoint_eq]
    rfl
  · rw [if_neg hc, if_neg hc]
    rfl

theorem readingsView_tick (ln : ℚ → ℚ) (i : Input) (s : State) :
    readingsView (tick ln i s) =
      ((if wrap16 (s.TEMP_COUNT + 1) = 100 then temperatureValue i.tempWord
        else s.CurrentTemp),
       (if wrap16 (s.HUMID_COUNT + 1) = 100 then humidityValue i.humidWord
        else s.CurrentHumidity),
       (if wrap16 (s.HUMID_COUNT + 1) = 100 then
          DewPoint_text s.CurDewPointStr
            (dewPointFormula ln s.CurrentTemp (humidityValue i.humidWord))
        else s.CurDewPointStr),
       (if wrap16 (s.HUMID_COUNT + 1) = 100 then
          (if truncQ (dewPointFormula ln s.CurrentTemp (humidityValue i.humidWord)) ≠
              s.DewPoint_prevRead
           then toChar (truncQ (dewPointFormula ln s.CurrentTemp (humidityValue i.humidWord)))
           else s.DewPoint_prevRead)
        else s.DewPoint_prevRead)) := by
  have hr := readingsView_editTick i s
  have hk := cadenceView_editTick i s
  have hh := readingsView_ReadHumidity ln i.humidWord (editTick i s)
  have hkh := cadenceView_ReadHumidity ln i.humidWord (editTick i s)
  have ht := readingsView_ReadTemp i.tempWord (ReadHumidity ln i.humidWord (editTick i s))
  unfold tick
  rw [readingsView_CheckAlerts, ht]
  simp only [readingsView, cadenceView, Prod.mk.injEq] at hr hk hh hkh ⊢
  obtain ⟨hr1, hr2, hr3, hr4⟩ := hr
  obtain ⟨hk1, hk2, -⟩ := hk
  rw [hr1, hr2, hr3, hr4, hk1] at hh
  rw [hk1, hk2] at hkh
  by_cases c1 : wrap16 (s.HUMID_COUNT + 1) = 100
  · simp only [c1, if_true, Prod.mk.injEq] at hh hkh ⊢
    obtain ⟨hh1, hh2, hh3, hh4⟩ := hh
    obtain ⟨-, hkh2, -⟩ := hkh
    rw [hh1, hh2, hh3, hh4, hkh2]
    exact ⟨rfl, rfl, rfl, rfl⟩
  · simp only [c1, if_false, Prod.mk.injEq] at hh hkh ⊢
    obtain ⟨hh1, hh2, hh3, hh4⟩ := hh
    obtain ⟨-, hkh2, -⟩ := hkh
    rw [hh1, hh2, hh3, hh4, hkh2]
    exact ⟨rfl, rfl, rfl, rfl⟩

theorem newEvents_of_out (s t : State) (es : List Event) (h : t.out = s.out ++ es) :
    newEvents s t = es := by
  simp [newEvents, h]

theorem ReadTemp_newEvents (w : Nat) (s : State) :
    newEvents s (ReadTemp w s) =
      if wrap16 (s.TEMP_COUNT + 1) = 100 then
        [Event.sht15_start, Event.sht15_command 3, Event.sht15_read_byte16 w,
          Event.Display Color.BKGD (ReadTemp_text s.CurTempStr (temperatureValue w))] ++
        if s.ReadTemp_prevRead ≠ truncQ (temperatureValue w)
        then [Event.DrawRectangle 5 101 135 117 Color.BKGD,
          Event.DrawRectangle 5 101
            (wrap16 (5 + wrap16 (2 * wrap16 (truncQ (temperatureValue w) + 10))))
            117 Color.LIME]
        else []
      else [] := by
  by_cases hc : wrap16 (s.TEMP_COUNT + 1) = 100
  · rw [if_pos hc]
    refine newEvents_of_out _ _ _ ?_
    rw [ReadTemp_eq, if_pos hc]
  · rw [if_neg hc]
    refine newEvents_of_out _ _ _ ?_
    rw [ReadTemp_eq, if_neg hc]
    simp

theorem ReadHumidity_newEvents (ln : ℚ → ℚ) (w : Nat) (s : State) :
    newEvents s (ReadHumidity ln w s) =
      if wrap16 (s.HUMID_COUNT + 1) = 100 then
        [Event.sht15_start, Event.sht15_command 5, Event.sht15_read_byte16 w,
          Event.Display Color.BKGD (ReadHumidity_text s.CurHumidStr (humidityValue w))] ++
        (if truncQ (humidityValue w) ≠ s.ReadHumidity_prevRead
         then [Event.DrawRectangle 5 125 135 141 Color.BKGD,
           Event.DrawRectangle 5 125 (wrap16 (5 + truncQ (humidityValue w))) 141 Color.LIME]
         else []) ++
        (Event.Display Color.BKGD (DewPoint_text s.CurDewPointStr
            (dewPointFormula ln s.CurrentTemp (humidityValue w))) ::
          if truncQ (dewPointFormula ln s.CurrentTemp (humidityValue w)) ≠ s.DewPoint_prevRead
          then [Event.DrawRectangle 5 149 120 165 Color.BKGD,
            Event.DrawRectangle 5 149
              (wrap16 (5 + wrap16 (2 * wrap16
                (truncQ (dewPointFormula ln s.CurrentTemp (humidityValue w)) + 10))))
              165 Color.LIME]
          else [])
      else [] := by
  by_cases hc : wrap16 (s.HUMID_COUNT + 1) = 100
  · rw [if_pos hc]
    refine newEvents_of_out _ _ _ ?_
    rw [ReadHumidity_eq, if_pos hc, DewPoint_eq]
    simp only [List.append_assoc]
  · rw [if_neg hc]
    refine newEvents_of_out _ _ _ ?_
    rw [ReadHumidity_eq, if_neg hc]
    simp

/-! ## Shared lemmas: evaluating the reading text fields -/

theorem ReadTemp_text_of_digits (str : List Int) (q : ℚ) (n a b : Int) (h1 : truncQ q = n)
    (h2 : truncQ ((q - n) * 10) = a) (h3 : truncQ ((q - n) * 100) = b) :
    ReadTemp_text str q =
      (((str.set 8 (toChar (48 + cdiv n 10))).set 9 (toChar (48 + cdiv (cmod n 10) 1))).set 11
        (toChar (48 + a))).set 12 (toChar (48 + cmod b 10)) := by
  subst h1 h2 h3
  rfl

theorem DewPoint_text_of_digits (str : List Int) (q : ℚ) (n a b : Int) (h1 : truncQ q = n)
    (h2 : truncQ ((q - n) * 10) = a) (h3 : truncQ ((q - n) * 100) = b) :
    DewPoint_text str q =
      (((str.set 10 (toChar (48 + cdiv n 10))).set 11 (toChar (48 + cdiv (cmod n 10) 1))).set 13
        (toChar (48 + a))).set 14 (toChar (48 + cmod b 10)) := by
  subst h1 h2 h3
  rfl

theorem ReadHumidity_text_of_digits (str : List Int) (q : ℚ) (n a b : Int)
    (h1 : truncQ q = n) (h2 : truncQ ((q - n) * 10) = a) (h3 : truncQ ((q - n) * 100) = b) :
    ReadHumidity_text str q =
      ((((str.set 8 (toChar (48 + cdiv n 100))).set 9
        (toChar (48 + cdiv (cmod n 100) 10))).set 10
        (toChar (48 + cdiv (cmod (cmod n 100) 10) 1))).set 12
        (toChar (48 + a))).set 13 (toChar (48 + cmod b 10)) := by
  subst h1 h2 h3
  rfl

theorem temperatureValue_6000 : temperatureValue 6000 = 203 / 10 := by
  norm_num [temperatureValue, wrap16]

theorem truncQ_temperature_6000 : truncQ (203 / 10) = 20 :=
  truncQ_of_floor _ 20 (by norm_num) (by norm_num) (by norm_num) (by decide) (by decide)

theorem ReadTemp_text_6000 :
    ReadTemp_text (cstr 5 13 "Temp: 00.00 C") (203 / 10) = cstr 5 13 "Temp: 20.30 C" := by
  have h2 : truncQ (((203 : ℚ) / 10 - ((20 : Int) : ℚ)) * 10) = 3 :=
    truncQ_of_floor _ 3 (by norm_num) (by norm_num) (by norm_num) (by decide) (by decide)
  have h3 : truncQ (((203 : ℚ) / 10 - ((20 : Int) : ℚ)) * 100) = 30 :=
    truncQ_of_floor _ 30 (by norm_num) (by norm_num) (by norm_num) (by decide) (by decide)
  rw [ReadTemp_text_of_digits _ _ 20 3 30 truncQ_temperature_6000 h2 h3]
  decide

theorem DewPoint_text_6000 :
    DewPoint_text (cstr 7 11 "DewPnt: 00.00 C") (203 / 10) = cstr 7 11 "DewPnt: 20.30 C" := by
  have h2 : truncQ (((203 : ℚ) / 10 - ((20 : Int) : ℚ)) * 10) = 3 :=
    truncQ_of_floor _ 3 (by norm_num) (by norm_num) (by norm_num) (by decide) (by decide)
  have h3 : truncQ (((203 : ℚ) / 10 - ((20 : Int) : ℚ)) * 100) = 30 :=
    truncQ_of_floor _ 30 (by norm_num) (by norm_num) (by norm_num) (by decide) (by decide)
  rw [DewPoint_text_of_digits _ _ 20 3 30 truncQ_temperature_6000 h2 h3]
  decide

/-! ## Cadence of the conversions and refresh of the dew point -/

/-- C14. Sensor cadence: counting the loop passes from the start state, the pass number
`n = is.length + 1` sends the humidity command (opcode 5) and publishes a new humidity
iff `n mod 100 = 0`, and sends the temperature command (opcode 3) and publishes a new
temperature iff `n mod 100 = 50`; no other bus command is sent, so each channel converts
once every 100 passes, 50 passes apart, and no pass converts both. -/
theorem sensor_cadence (ln : ℚ → ℚ) (P : Nat) (is : List Input) (i : Input) :
    busCommands (tick ln i (run ln is (initState P))).out =
      busCommands (run ln is (initState P)).out ++
        (if (is.length + 1) % 100 = 0 then [5] else []) ++
        (if (is.length + 1) % 100 = 50 then [3] else []) ∧
    (tick ln i (run ln is (initState P))).CurrentHumidity =
      (if (is.length + 1) % 100 = 0 then humidityValue i.humidWord
       else (run ln is (initState P)).CurrentHumidity) ∧
    (tick ln i (run ln is (initState P))).CurrentTemp =
      (if (is.length + 1) % 100 = 50 then temperatureValue i.tempWord
       else (run ln is (initState P)).CurrentTemp) ∧
    (busCommands (tick ln i (run ln is (initState P))).out).length ≤
      (busCommands (run ln is (initState P)).out).length + 1 := by
  obtain ⟨c1, c2⟩ := counters_run ln P is
  have hk := cadenceView_tick ln i (run ln is (initState P))
  have hr := readingsView_tick ln i (run ln is (initState P))
  simp only [cadenceView, readingsView, Prod.mk.injEq] at hk hr
  obtain ⟨-, -, hk3⟩ := hk
  obtain ⟨hr1, hr2, -, -⟩ := hr
  have e1 : wrap16 ((run ln is (initState P)).HUMID_COUNT + 1) = 100 ↔
      (is.length + 1) % 100 = 0 := by
    rw [c1]
    unfold wrap16
    omega
  have e2 : wrap16 ((run ln is (initState P)).TEMP_COUNT + 1) = 100 ↔
      (is.length + 1) % 100 = 50 := by
    rw [c2]
    unfold wrap16
    omega
  simp only [e1, e2] at hk3 hr1 hr2
  refine ⟨hk3, hr2, hr1, ?_⟩
  rw [hk3]
  by_cases a : (is.length + 1) % 100 = 0
  · have b : ¬ (is.length + 1) % 100 = 50 := by omega
    simp [a, b]
  · by_cases b : (is.length + 1) % 100 = 50 <;> simp [a, b]

/-- Counterexample to C15 as stated: in the pass of `saturatedTempDue` (temperature 0,
humidity 100, dew point field `00.00`) `ReadTemp` publishes the temperature 20.3, its
calls are the three bus calls, the `Display` of the temperature field and the two
rectangles of the temperature bar, and after the pass the dew point field still holds
`00.00`, whereas a call of `DewPoint` after the write would have set it to `20.30`. -/
theorem dew_point_stale_after_temperature_counterexample :
    saturatedTempDue.CurrentTemp = 0 ∧
    (tick (fun _ => 0) turnInput saturatedTempDue).CurrentTemp = 203 / 10 ∧
    (tick (fun _ => 0) turnInput saturatedTempDue).CurrentHumidity = 100 ∧
    (tick (fun _ => 0) turnInput saturatedTempDue).CurDewPointStr =
      cstr 7 11 "DewPnt: 00.00 C" ∧
    newEvents saturatedTempDue (ReadTemp 6000 saturatedTempDue) =
      [Event.sht15_start, Event.sht15_command 3, Event.sht15_read_byte16 6000,
        Event.Display Color.BKGD (cstr 5 13 "Temp: 20.30 C"),
        Event.DrawRectangle 5 101 135 117 Color.BKGD,
        Event.DrawRectangle 5 101 65 117 Color.LIME] ∧
    (DewPoint (fun _ => 0) (tick (fun _ => 0) turnInput saturatedTempDue)).CurDewPointStr =
      cstr 7 11 "DewPnt: 20.30 C" := by
  have hr := readingsView_tick (fun _ => 0) turnInput saturatedTempDue
  have ct : wrap16 (saturatedTempDue.TEMP_COUNT + 1) = 100 := by decide
  have ch : ¬ wrap16 (saturatedTempDue.HUMID_COUNT + 1) = 100 := by decide
  have hw : turnInput.tempWord = 6000 := rfl
  simp only [readingsView, Prod.mk.injEq, if_pos ct, if_neg ch, hw,
    temperatureValue_6000] at hr
  obtain ⟨hr1, hr2, hr3, -⟩ := hr
  refine ⟨rfl, hr1, hr2, hr3, ?_, ?_⟩
  · rw [ReadTemp_newEvents, if_pos ct, temperatureValue_6000, truncQ_temperature_6000]
    have hp : saturatedTempDue.ReadTemp_prevRead ≠ 20 := by decide
    rw [if_pos hp]
    have hs : saturatedTempDue.CurTempStr = cstr 5 13 "Temp: 00.00 C" := rfl
    rw [hs, ReadTemp_text_6000]
    decide
  · rw [DewPoint_eq]
    show DewPoint_text (tick (fun _ => 0) turnInput saturatedTempDue).CurDewPointStr
      (dewPointFormula (fun _ => 0)
        (tick (fun _ => 0) turnInput saturatedTempDue).CurrentTemp
        (tick (fun _ => 0) turnInput saturatedTempDue).CurrentHumidity) = _
    have h100 : saturatedTempDue.CurrentHumidity = 100 := rfl
    have hstr : saturatedTempDue.CurDewPointStr = cstr 7 11 "DewPnt: 00.00 C" := rfl
    rw [hr1, hr2, hr3, h100, hstr,
      dewPointFormula_saturation (fun _ => 0) rfl (203 / 10) (by norm_num)]
    exact DewPoint_text_6000

/-- C15, amended. The dew point follows the humidity conversions only: in a loop pass
`DewPoint` runs exactly when `ReadHumidity` converts (`HUMID_COUNT` reaches 100), after
the write of `CurrentHumidity`, and computes the dew point field from the humidity just
published and the temperature published last; a pass in which only `ReadTemp` converts
publishes the new temperature and leaves the dew point field and the integer part last
drawn by `DewPoint` as they were, and the calls of `ReadTemp` are the bus calls, the
`Display` of the temperature field and the rectangles of the temperature bar. -/
theorem dew_point_follows_humidity_conversion (ln : ℚ → ℚ) (i : Input) (s : State) :
    (tick ln i s).CurrentTemp =
      (if wrap16 (s.TEMP_COUNT + 1) = 100 then temperatureValue i.tempWord
       else s.CurrentTemp) ∧
    (tick ln i s).CurrentHumidity =
      (if wrap16 (s.HUMID_COUNT + 1) = 100 then humidityValue i.humidWord
       else s.CurrentHumidity) ∧
    (tick ln i s).CurDewPointStr =
      (if wrap16 (s.HUMID_COUNT + 1) = 100 then
        DewPoint_text s.CurDewPointStr
          (dewPointFormula ln s.CurrentTemp (humidityValue i.humidWord))
       else s.CurDewPointStr) ∧
    (tick ln i s).DewPoint_prevRead =
      (if wrap16 (s.HUMID_COUNT + 1) = 100 then
        (if truncQ (dewPointFormula ln s.CurrentTemp (humidityValue i.humidWord)) ≠
            s.DewPoint_prevRead
         then toChar (truncQ (dewPointFormula ln s.CurrentTemp (humidityValue i.humidWord)))
         else s.DewPoint_prevRead)
       else s.DewPoint_prevRead) ∧
    newEvents s (ReadTemp i.tempWord s) =
      (if wrap16 (s.TEMP_COUNT + 1) = 100 then
        [Event.sht15_start, Event.sht15_command 3, Event.sht15_read_byte16 i.tempWord,
          Event.Display Color.BKGD (ReadTemp_text s.CurTempStr (temperatureValue i.tempWord))] ++
        if s.ReadTemp_prevRead ≠ truncQ (temperatureValue i.tempWord)
        then [Event.DrawRectangle 5 101 135 117 Color.BKGD,
          Event.DrawRectangle 5 101
            (wrap16 (5 + wrap16 (2 * wrap16 (truncQ (temperatureValue i.tempWord) + 10))))
            117 Color.LIME]
        else []
       else []) ∧
    (wrap16 (s.HUMID_COUNT + 1) = 100 →
      Event.Display Color.BKGD (DewPoint_text s.CurDewPointStr
          (dewPointFormula ln s.CurrentTemp (humidityValue i.humidWord))) ∈
        newEvents s (ReadHumidity ln i.humidWord s)) := by
  have hr := readingsView_tick ln i s
  simp only [readingsView, Prod.mk.injEq] at hr
  obtain ⟨hr1, hr2, hr3, hr4⟩ := hr
  refine ⟨hr1, hr2, hr3, hr4, ReadTemp_newEvents _ s, ?_⟩
  intro hc
  rw [ReadHumidity_newEvents, if_pos hc]
  simp

/-- Witness of C15, amended: the humidity conversion of `humidDue`. -/
theorem dew_point_follows_humidity_conversion_witness :
    wrap16 (humidDue.HUMID_COUNT + 1) = 100 ∧
    Event.Display Color.BKGD (DewPoint_text humidDue.CurDewPointStr
        (dewPointFormula (fun _ => 0) humidDue.CurrentTemp
          (humidityValue turnInput.humidWord))) ∈
      newEvents humidDue (ReadHumidity (fun _ => 0) turnInput.humidWord humidDue) :=
  ⟨by decide,
   (dew_point_follows_humidity_conversion (fun _ => 0) turnInput humidDue).2.2.2.2.2
     (by decide)⟩

/-! ## Redraws: alert fields and reading fields -/

theorem edgeEvents_same (b : Bool) (alert blank : List Int) :
    edgeEvents b b alert blank = [] := by
  cases b <;> rfl

/-- C16. Alert redraw only on a latch edge: the `Display` calls of `CheckAlerts` are, in
the order lower temperature, upper temperature, upper humidity, lower humidity bound,
the alert string in red for each latch that the call takes from clear to breached and
the blank string for each latch that it takes from breached to clear, and nothing for a
latch that keeps its value; a second call on the result issues no call at all. -/
theorem alert_redraw_only_on_latch_edge (s : State) (alert blank : List Int) (b : Bool) :
    newEvents s (CheckAlerts s) =
      edgeEvents s.Alert2Fixed (CheckAlerts s).Alert2Fixed AlertStr2 BlankStr2 ++
      edgeEvents s.Alert1Fixed (CheckAlerts s).Alert1Fixed AlertStr1 BlankStr1 ++
      edgeEvents s.Alert3Fixed (CheckAlerts s).Alert3Fixed AlertStr3 BlankStr3 ++
      edgeEvents s.Alert4Fixed (CheckAlerts s).Alert4Fixed AlertStr4 BlankStr4 ∧
    newEvents (CheckAlerts s) (CheckAlerts (CheckAlerts s)) = [] ∧
    edgeEvents false true alert blank = [Event.Display Color.RED alert] ∧
    edgeEvents true false alert blank = [Event.Display Color.BKGD blank] ∧
    edgeEvents b b alert blank = [] := by
  obtain ⟨h1, h2, h3, h4, -, ho, hT, hH, hts⟩ := CheckAlerts_result s
  obtain ⟨k1, k2, k3, k4, -, ko, -⟩ := CheckAlerts_result (CheckAlerts s)
  simp only [thresholdState, actives, copies, Prod.mk.injEq] at hts
  obtain ⟨⟨a1, a2, a3, a4⟩, -, -⟩ := hts
  refine ⟨?_, ?_, rfl, rfl, ?_⟩
  · rw [h1, h2, h3, h4]
    refine newEvents_of_out _ _ _ ?_
    rw [ho]
  · refine newEvents_of_out _ _ _ ?_
    rw [ko, hT, hH, a1, a2, a3, a4, h1, h2, h3, h4]
    simp only [edgeEvents_same, List.append_nil]
  · exact edgeEvents_same b alert blank

theorem humidityValue_1000 : humidityValue 1000 = 3462614032 / 100000000 := by
  norm_num [humidityValue, wrap16]

theorem truncQ_humidity_1000 : truncQ (3462614032 / 100000000) = 34 :=
  truncQ_of_floor _ 34 (by norm_num) (by norm_num) (by norm_num) (by decide) (by decide)

theorem ReadHumidity_text_1000 :
    ReadHumidity_text (cstr 6 12 "Humid: 00.00 %") (3462614032 / 100000000) =
      cstr 6 12 "Humid:034.62 %" := by
  have h2 : truncQ (((3462614032 : ℚ) / 100000000 - ((34 : Int) : ℚ)) * 10) = 6 :=
    truncQ_of_floor _ 6 (by norm_num) (by norm_num) (by norm_num) (by decide) (by decide)
  have h3 : truncQ (((3462614032 : ℚ) / 100000000 - ((34 : Int) : ℚ)) * 100) = 62 :=
    truncQ_of_floor _ 62 (by norm_num) (by norm_num) (by norm_num) (by decide) (by decide)
  rw [ReadHumidity_text_of_digits _ _ 34 6 62 truncQ_humidity_1000 h2 h3]
  decide

theorem truncQ_zero : truncQ 0 = 0 :=
  truncQ_of_floor _ 0 (by norm_num) (by norm_num) (by norm_num) (by decide) (by decide)

theorem DewPoint_text_zero :
    DewPoint_text (cstr 7 11 "DewPnt: 00.00 C") 0 = cstr 7 11 "DewPnt: 00.00 C" := by
  have h2 : truncQ (((0 : ℚ) - ((0 : Int) : ℚ)) * 10) = 0 :=
    truncQ_of_floor _ 0 (by norm_num) (by norm_num) (by norm_num) (by decide) (by decide)
  have h3 : truncQ (((0 : ℚ) - ((0 : Int) : ℚ)) * 100) = 0 :=
    truncQ_of_floor _ 0 (by norm_num) (by norm_num) (by norm_num) (by decide) (by decide)
  rw [DewPoint_text_of_digits _ _ 0 0 0 truncQ_zero h2 h3]
  decide

/-- Counterexample to C17 as stated: in `tempSameInt` the integer part last drawn is 20
and the new temperature 20.3 has the integer part 20, yet `ReadTemp` issues the `Display`
call of the temperature field (and no rectangle); in `humidSameInt` the integer part
last drawn is 34 and the new humidity has the integer part 34, yet `ReadHumidity` issues
the `Display` call of the humidity field (followed by that of the dew point field). -/
theorem text_field_redrawn_with_same_integer_part_counterexample :
    truncQ (temperatureValue 6000) = tempSameInt.ReadTemp_prevRead ∧
    newEvents tempSameInt (ReadTemp 6000 tempSameInt) =
      [Event.sht15_start, Event.sht15_command 3, Event.sht15_read_byte16 6000,
        Event.Display Color.BKGD (cstr 5 13 "Temp: 20.30 C")] ∧
    truncQ (humidityValue 1000) = humidSameInt.ReadHumidity_prevRead ∧
    newEvents humidSameInt (ReadHumidity (fun _ => 0) 1000 humidSameInt) =
      [Event.sht15_start, Event.sht15_command 5, Event.sht15_read_byte16 1000,
        Event.Display Color.BKGD (cstr 6 12 "Humid:034.62 %"),
        Event.Display Color.BKGD (cstr 7 11 "DewPnt: 00.00 C")] := by
  have ct : wrap16 (tempSameInt.TEMP_COUNT + 1) = 100 := by decide
  have ch : wrap16 (humidSameInt.HUMID_COUNT + 1) = 100 := by decide
  have pt : tempSameInt.ReadTemp_prevRead = 20 := rfl
  have ph : humidSameInt.ReadHumidity_prevRead = 34 := rfl
  have st : tempSameInt.CurTempStr = cstr 5 13 "Temp: 00.00 C" := rfl
  have sh : humidSameInt.CurHumidStr = cstr 6 12 "Humid: 00.00 %" := rfl
  have sd : humidSameInt.CurDewPointStr = cstr 7 11 "DewPnt: 00.00 C" := rfl
  have pd : humidSameInt.DewPoint_prevRead = 0 := rfl
  have hT : humidSameInt.CurrentTemp = 0 := rfl
  have hD : dewPointFormula (fun _ => (0 : ℚ)) 0 (3462614032 / 100000000) = 0 := by
    norm_num [dewPointFormula]
  refine ⟨?_, ?_, ?_, ?_⟩
  · rw [temperatureValue_6000, truncQ_temperature_6000, pt]
  · rw [ReadTemp_newEvents, if_pos ct, temperatureValue_6000, truncQ_temperature_6000, pt,
      st, ReadTemp_text_6000]
    simp
  · rw [humidityValue_1000, truncQ_humidity_1000, ph]
  · rw [ReadHumidity_newEvents, if_pos ch, humidityValue_1000, truncQ_humidity_1000, ph, sh,
      sd, pd, hT, hD, truncQ_zero, ReadHumidity_text_1000, DewPoint_text_zero]
    simp

/-- C17, amended. Redraw suppression of the bar graph only: on a conversion call
`ReadTemp` issues the three bus calls and the `Display` of the temperature field, and
after them the two rectangles of the bar only when the integer part of the new value
differs from `prevRead`; `ReadHumidity` does the same for the humidity field and its
bar, followed by the calls of `DewPoint`; after a conversion `prevRead` is the integer
part of the new value; a call that does not convert issues nothing. -/
theorem bar_graph_redraw_suppression (ln : ℚ → ℚ) (w : Nat) (s : State) :
    newEvents s (ReadTemp w s) =
      (if wrap16 (s.TEMP_COUNT + 1) = 100 then
        [Event.sht15_start, Event.sht15_command 3, Event.sht15_read_byte16 w,
          Event.Display Color.BKGD (ReadTemp w s).CurTempStr] ++
        if s.ReadTemp_prevRead ≠ truncQ (temperatureValue w)
        then [Event.DrawRectangle 5 101 135 117 Color.BKGD,
          Event.DrawRectangle 5 101
            (wrap16 (5 + wrap16 (2 * wrap16 (truncQ (temperatureValue w) + 10))))
            117 Color.LIME]
        else []
       else []) ∧
    newEvents s (ReadHumidity ln w s) =
      (if wrap16 (s.HUMID_COUNT + 1) = 100 then
        [Event.sht15_start, Event.sht15_command 5, Event.sht15_read_byte16 w,
          Event.Display Color.BKGD (ReadHumidity ln w s).CurHumidStr] ++
        (if truncQ (humidityValue w) ≠ s.ReadHumidity_prevRead
         then [Event.DrawRectangle 5 125 135 141 Color.BKGD,
           Event.DrawRectangle 5 125 (wrap16 (5 + truncQ (humidityValue w))) 141 Color.LIME]
         else []) ++
        (Event.Display Color.BKGD (ReadHumidity ln w s).CurDewPointStr ::
          if truncQ (dewPointFormula ln s.CurrentTemp (humidityValue w)) ≠ s.DewPoint_prevRead
          then [Event.DrawRectangle 5 149 120 165 Color.BKGD,
            Event.DrawRectangle 5 149
              (wrap16 (5 + wrap16 (2 * wrap16
                (truncQ (dewPointFormula ln s.CurrentTemp (humidityValue w)) + 10))))
              165 Color.LIME]
          else [])
       else []) ∧
    (ReadTemp w s).ReadTemp_prevRead =
      (if wrap16 (s.TEMP_COUNT + 1) = 100 then truncQ (temperatureValue w)
       else s.ReadTemp_prevRead) ∧
    (ReadHumidity ln w s).ReadHumidity_prevRead =
      (if wrap16 (s.HUMID_COUNT + 1) = 100 then truncQ (humidityValue w)
       else s.ReadHumidity_prevRead) := by
  have e1 : (ReadTemp w s).CurTempStr =
      if wrap16 (s.TEMP_COUNT + 1) = 100 then ReadTemp_text s.CurTempStr (temperatureValue w)
      else s.CurTempStr := by
    rw [ReadTemp_eq]
    by_cases hc : wrap16 (s.TEMP_COUNT + 1) = 100
    · rw [if_pos hc, if_pos hc]
    · rw [if_neg hc, if_neg hc]
  have e2 : (ReadHumidity ln w s).CurHumidStr =
      if wrap16 (s.HUMID_COUNT + 1) = 100
      then ReadHumidity_text s.CurHumidStr (humidityValue w) else s.CurHumidStr := by
    rw [ReadHumidity_eq]
    by_cases hc : wrap16 (s.HUMID_COUNT + 1) = 100
    · rw [if_pos hc, if_pos hc, DewPoint_eq]
    · rw [if_neg hc, if_neg hc]
  have e3 := readingsView_ReadHumidity ln w s
  refine ⟨?_, ?_, ?_, ?_⟩
  · rw [ReadTemp_newEvents, e1]
    by_cases hc : wrap16 (s.TEMP_COUNT + 1) = 100
    · simp only [if_pos hc]
    · simp only [if_neg hc]
  · rw [ReadHumidity_newEvents, e2]
    by_cases hc : wrap16 (s.HUMID_COUNT + 1) = 100
    · simp only [if_pos hc, readingsView, Prod.mk.injEq] at e3 ⊢
      rw [e3.2.2.1]
    · simp only [if_neg hc]
  · rw [ReadTemp_eq]
    by_cases hc : wrap16 (s.TEMP_COUNT + 1) = 100
    · rw [if_pos hc, if_pos hc]
      by_cases hp : s.ReadTemp_prevRead = truncQ (temperatureValue w)
      · simp [hp]
      · simp [hp]
    · rw [if_neg hc, if_neg hc]
  · rw [ReadHumidity_eq]
    by_cases hc : wrap16 (s.HUMID_COUNT + 1) = 100
    · rw [if_pos hc, if_pos hc, DewPoint_eq]
      by_cases hp : truncQ (humidityValue w) = s.ReadHumidity_prevRead
      · simp [hp]
      · simp [hp]
    · rw [if_neg hc, if_neg hc]

/-! ## Shared lemmas: the threshold text fields -/

theorem writeTempField_getD (str : List Int) (v : Int) (h : 13 < str.length) :
    (writeTempField str v).getD 11 0 = (if v < 0 then 45 else 32) ∧
    (writeTempField str v).getD 12 0 =
      toChar (48 + cdiv (if v < 0 then wrap16 (v * -1) else v) 10) ∧
    (writeTempField str v).getD 13 0 =
      toChar (48 + cmod (if v < 0 then wrap16 (v * -1) else v) 10) := by
  have h11 : 11 < str.length := by omega
  have h12 : 12 < str.length := by omega
  unfold writeTempField
  by_cases hv : v < 0 <;>
    simp [hv, List.getD_eq_getElem?_getD, List.getElem?_set, h, h11, h12]

theorem writeHumidField_getD (str : List Int) (v : Int) (h : 15 < str.length) :
    (writeHumidField str v).getD 13 0 = toChar (48 + cdiv v 100) ∧
    (writeHumidField str v).getD 14 0 = toChar (48 + cdiv (cmod v 100) 10) ∧
    (writeHumidField str v).getD 15 0 = toChar (48 + cmod (cmod v 100) 10) := by
  have h13 : 13 < str.length := by omega
  have h14 : 14 < str.length := by omega
  unfold writeHumidField
  simp [List.getD_eq_getElem?_getD, List.getElem?_set, h, h13, h14]

theorem tempDigits (v : Int) (h1 : -10 ≤ v) (h2 : v ≤ 50) :
    toChar (48 + cdiv (if v < 0 then wrap16 (v * -1) else v) 10) = 48 + |v| / 10 ∧
    toChar (48 + cmod (if v < 0 then wrap16 (v * -1) else v) 10) = 48 + |v| % 10 := by
  interval_cases v <;> exact ⟨by decide, by decide⟩

theorem humidDigits (v : Int) (h1 : 0 ≤ v) (h2 : v ≤ 100) :
    toChar (48 + cdiv v 100) = 48 + v / 100 ∧
    toChar (48 + cdiv (cmod v 100) 10) = 48 + v % 100 / 10 ∧
    toChar (48 + cmod (cmod v 100) 10) = 48 + v % 10 := by
  interval_cases v <;> exact ⟨by decide, by decide, by decide⟩

theorem SelectBound_selected (b : Bool) (s : State) :
    selCopy (SelectBound b s) = stepCopy (selLo s) (selHi s) s.DELRPG (selCopy s) ∧
    selActive (SelectBound b s) = (if b then selActive s else selCopy s) ∧
    selStr (SelectBound b s) =
      (if s.TargetChange = 0 ∨ s.TargetChange = 2
       then writeTempField (selStr s) (selCopy (SelectBound b s))
       else writeHumidField (selStr s) (selCopy (SelectBound b s))) ∧
    (SelectBound b s).out =
      s.out ++ [Event.Display Color.BKGD (selStr (SelectBound b s))] := by
  rw [SelectBound_eq]
  by_cases h0 : s.TargetChange = 0
  · simp [h0, selCopy, selActive, selStr, selLo, selHi]
  · by_cases h1 : s.TargetChange = 1
    · simp [h1, selCopy, selActive, selStr, selLo, selHi]
    · by_cases h2 : s.TargetChange = 2
      · simp [h2, selCopy, selActive, selStr, selLo, selHi]
      · simp [h0, h1, h2, selCopy, selActive, selStr, selLo, selHi]

theorem stepCopy_clamp (lo hi d c : Int) (hlo : -128 ≤ lo) (hhi : hi ≤ 127) (h1 : lo ≤ c)
    (h2 : c ≤ hi) (hd : d = -1 ∨ d = 0 ∨ d = 1) :
    stepCopy lo hi d c = min hi (max lo (c + d)) := by
  have hmin : min hi (max lo (c + d)) =
      if hi ≤ c + d then hi else if c + d ≤ lo then lo else c + d := by
    simp only [min_def, max_def]
    split_ifs <;> omega
  rw [hmin]
  unfold stepCopy toChar
  rcases hd with hd | hd | hd
  · rw [hd]
    by_cases hc : c > lo
    · rw [if_neg (by omega), if_pos ⟨rfl, hc⟩]
      split_ifs <;> omega
    · rw [if_neg (by omega), if_neg (by omega)]
      split_ifs <;> omega
  · rw [hd]
    rw [if_neg (by omega), if_neg (by omega)]
    split_ifs <;> omega
  · rw [hd]
    by_cases hc : c < hi
    · rw [if_pos ⟨rfl, hc⟩]
      split_ifs <;> omega
    · rw [if_neg (by omega)]
      rw [if_neg (by omega)]
      split_ifs <;> omega

theorem selLo_selHi (s : State) : -128 ≤ selLo s ∧ selHi s ≤ 127 := by
  unfold selLo selHi
  split_ifs <;> decide

/-! ## The threshold editor -/

/-- C18. Threshold field formatting round-trips: `SelectBound` draws the text buffer of
the selected threshold, and when the working copy `v` it leaves is in the valid range,
a temperature buffer holds at offsets 11..13 the sign glyph (`'-'` if `v < 0`, else a
blank) and two digit characters `d1 d2` with `|v| = 10*d1 + d2`, a humidity buffer holds
at offsets 13..15 three digit characters `d1 d2 d3` with `v = 100*d1 + 10*d2 + d3`; so the
field decodes back to `v`. (The buffers of the source have 18 bytes; the hypothesis on
the length states that of the list that models the selected one.) -/
theorem threshold_field_round_trips (b : Bool) (s : State)
    (hr : selLo s ≤ selCopy (SelectBound b s) ∧ selCopy (SelectBound b s) ≤ selHi s)
    (hl : 15 < (selStr s).length) :
    (SelectBound b s).out =
      s.out ++ [Event.Display Color.BKGD (selStr (SelectBound b s))] ∧
    ((s.TargetChange = 0 ∨ s.TargetChange = 2) →
      (selStr (SelectBound b s)).getD 11 0 =
        (if selCopy (SelectBound b s) < 0 then 45 else 32) ∧
      isDigitChar ((selStr (SelectBound b s)).getD 12 0) ∧
      isDigitChar ((selStr (SelectBound b s)).getD 13 0) ∧
      |selCopy (SelectBound b s)| =
        10 * ((selStr (SelectBound b s)).getD 12 0 - 48) +
          ((selStr (SelectBound b s)).getD 13 0 - 48) ∧
      decodeTempField (selStr (SelectBound b s)) = selCopy (SelectBound b s)) ∧
    (¬ (s.TargetChange = 0 ∨ s.TargetChange = 2) →
      isDigitChar ((selStr (SelectBound b s)).getD 13 0) ∧
      isDigitChar ((selStr (SelectBound b s)).getD 14 0) ∧
      isDigitChar ((selStr (SelectBound b s)).getD 15 0) ∧
      selCopy (SelectBound b s) =
        100 * ((selStr (SelectBound b s)).getD 13 0 - 48) +
          10 * ((selStr (SelectBound b s)).getD 14 0 - 48) +
          ((selStr (SelectBound b s)).getD 15 0 - 48) ∧
      decodeHumidField (selStr (SelectBound b s)) = selCopy (SelectBound b s)) := by
  obtain ⟨-, -, hs, ho⟩ := SelectBound_selected b s
  obtain ⟨hr1, hr2⟩ := hr
  refine ⟨ho, ?_, ?_⟩
  · intro ht
    rw [if_pos ht] at hs
    have hlo : selLo s = -10 := by simp [selLo, ht]
    have hhi : selHi s = 50 := by simp [selHi, ht]
    rw [hlo] at hr1
    rw [hhi] at hr2
    obtain ⟨g11, g12, g13⟩ :=
      writeTempField_getD (selStr s) (selCopy (SelectBound b s)) (by omega)
    obtain ⟨d1, d2⟩ := tempDigits (selCopy (SelectBound b s)) hr1 hr2
    rw [d1] at g12
    rw [d2] at g13
    rw [← hs] at g11 g12 g13
    have habs : 0 ≤ |selCopy (SelectBound b s)| := abs_nonneg _
    have hle : |selCopy (SelectBound b s)| ≤ 50 := abs_le.mpr ⟨by omega, hr2⟩
    refine ⟨g11, ?_, ?_, ?_, ?_⟩
    · rw [g12]
      unfold isDigitChar
      omega
    · rw [g13]
      unfold isDigitChar
      omega
    · rw [g12, g13]
      omega
    · unfold decodeTempField
      rw [g11, g12, g13]
      by_cases hneg : selCopy (SelectBound b s) < 0
      · rw [if_pos hneg, abs_of_neg hneg]
        simp only [if_true]
        omega
      · rw [if_neg hneg, abs_of_nonneg (not_lt.mp hneg)]
        simp only [show ¬ ((32 : Int) = 45) by decide, if_false]
        omega
  · intro ht
    rw [if_neg ht] at hs
    have hlo : selLo s = 0 := by simp [selLo, ht]
    have hhi : selHi s = 100 := by simp [selHi, ht]
    rw [hlo] at hr1
    rw [hhi] at hr2
    obtain ⟨g13, g14, g15⟩ :=
      writeHumidField_getD (selStr s) (selCopy (SelectBound b s)) hl
    obtain ⟨d1, d2, d3⟩ := humidDigits (selCopy (SelectBound b s)) hr1 hr2
    rw [d1] at g13
    rw [d2] at g14
    rw [d3] at g15
    rw [← hs] at g13 g14 g15
    refine ⟨?_, ?_, ?_, ?_, ?_⟩
    · rw [g13]
      unfold isDigitChar
      omega
    · rw [g14]
      unfold isDigitChar
      omega
    · rw [g15]
      unfold isDigitChar
      omega
    · rw [g13, g14, g15]
      omega
    · unfold decodeHumidField
      rw [g13, g14, g15]
      omega

/-- Witness of C18: a confirmed step down from the working copy 42 of the upper
temperature bound; the field then reads 41. -/
theorem threshold_field_round_trips_witness :
    selCopy (SelectBound false steppingState) = 41 ∧
    (SelectBound false steppingState).out =
      steppingState.out ++
        [Event.Display Color.BKGD (selStr (SelectBound false steppingState))] ∧
    decodeTempField (selStr (SelectBound false steppingState)) =
      selCopy (SelectBound false steppingState) :=
  ⟨by decide,
   (threshold_field_round_trips false steppingState (by decide) (by decide)).1,
   ((threshold_field_round_trips false steppingState (by decide) (by decide)).2.1
     (by decide)).2.2.2.2⟩

/-- C19. Commit first, then clamp-step: with the selected working copy `w` in its valid
range and a step in -1, 0, +1, `SelectBound` leaves the selected working copy at
`min hi (max lo (w + step))`; with the pushbutton pressed the selected active value
becomes `w`, the working copy as it was before the step of this call, and with the
pushbutton released it keeps its value. -/
theorem commit_first_then_clamp_step (b : Bool) (s : State)
    (hr : selLo s ≤ selCopy s ∧ selCopy s ≤ selHi s)
    (hd : s.DELRPG = -1 ∨ s.DELRPG = 0 ∨ s.DELRPG = 1) :
    selCopy (SelectBound b s) = min (selHi s) (max (selLo s) (selCopy s + s.DELRPG)) ∧
    (b = false → selActive (SelectBound b s) = selCopy s) ∧
    (b = true → selActive (SelectBound b s) = selActive s) := by
  obtain ⟨hc, ha, -, -⟩ := SelectBound_selected b s
  obtain ⟨hlo, hhi⟩ := selLo_selHi s
  refine ⟨?_, ?_, ?_⟩
  · rw [hc]
    exact stepCopy_clamp _ _ _ _ hlo hhi hr.1 hr.2 hd
  · intro hb
    rw [ha, hb]
    rfl
  · intro hb
    rw [ha, hb]
    rfl

/-- Witness of C19: a confirmed step down from the working copy 42 of the upper
temperature bound commits 42 and leaves the working copy at 41; a step up at the upper
limit 50 saturates. -/
theorem commit_first_then_clamp_step_witness :
    selCopy (SelectBound false steppingState) = min 50 (max (-10) (42 + -1)) ∧
    selActive (SelectBound false steppingState) = 42 ∧
    selCopy (SelectBound true { initState 0 with DELRPG := 1 }) =
      min 50 (max (-10) (50 + 1)) :=
  ⟨(commit_first_then_clamp_step false steppingState (by decide) (by decide)).1,
   (commit_first_then_clamp_step false steppingState (by decide) (by decide)).2.1 rfl,
   (commit_first_then_clamp_step true { initState 0 with DELRPG := 1 } (by decide)
     (by decide)).1⟩

/-- C20. `SelectBound` touches only the selected threshold: with the selection in
`0 .. 3`, it leaves the selection unchanged and leaves the active value and the working
copy of each of the three thresholds that are not selected unchanged. -/
theorem select_bound_frames_unselected (b : Bool) (s : State)
    (h : 0 ≤ s.TargetChange ∧ s.TargetChange ≤ 3) :
    (SelectBound b s).TargetChange = s.TargetChange ∧
    (s.TargetChange ≠ 0 →
      (SelectBound b s).MaxTemp = s.MaxTemp ∧ (SelectBound b s).MaxTempCpy = s.MaxTempCpy) ∧
    (s.TargetChange ≠ 1 →
      (SelectBound b s).MaxHumid = s.MaxHumid ∧
        (SelectBound b s).MaxHumidCpy = s.MaxHumidCpy) ∧
    (s.TargetChange ≠ 2 →
      (SelectBound b s).MinTemp = s.MinTemp ∧ (SelectBound b s).MinTempCpy = s.MinTempCpy) ∧
    (s.TargetChange ≠ 3 →
      (SelectBound b s).MinHumid = s.MinHumid ∧
        (SelectBound b s).MinHumidCpy = s.MinHumidCpy) := by
  obtain ⟨f0, -, f1, f2, f3, f4, f5, f6, f7, f8⟩ := SelectBound_fields b s
  refine ⟨f0, ?_, ?_, ?_, ?_⟩
  · intro hn
    rw [f1, f5]
    simp [hn]
  · intro hn
    rw [f2, f6]
    simp [hn]
  · intro hn
    rw [f3, f7]
    simp [hn]
  · intro hn
    rw [f4, f8]
    have h012 : ¬ (s.TargetChange ≠ 0 ∧ s.TargetChange ≠ 1 ∧ s.TargetChange ≠ 2) := by
      omega
    simp [h012]

/-- Witness of C20: a confirmed step on the upper temperature bound, selection 0, leaves
the other three thresholds as they were. -/
theorem select_bound_frames_unselected_witness :
    (SelectBound false steppingState).TargetChange = 0 ∧
    (SelectBound false steppingState).MaxHumid = 100 ∧
    (SelectBound false steppingState).MinTempCpy = -10 ∧
    (SelectBound false steppingState).MinHumid = 0 :=
  ⟨(select_bound_frames_unselected false steppingState (by decide)).1,
   ((select_bound_frames_unselected false steppingState (by decide)).2.2.1 (by decide)).1,
   ((select_bound_frames_unselected false steppingState (by decide)).2.2.2.1
     (by decide)).2,
   ((select_bound_frames_unselected false steppingState (by decide)).2.2.2.2
     (by decide)).1⟩

/-! ## Shared lemmas: what the editing part of a pass depends on -/

theorem OLDRPG_DetectTarget (s : State) : (DetectTarget s).OLDRPG = s.OLDRPG := by
  have e1 : ∀ t, (DetectTarget_MaxTemp t).OLDRPG = t.OLDRPG := by
    intro t
    rw [DetectTarget_MaxTemp_eq]
    split_ifs <;> rfl
  have e2 : ∀ t, (DetectTarget_MaxHumid t).OLDRPG = t.OLDRPG := by
    intro t
    rw [DetectTarget_MaxHumid_eq]
    split_ifs <;> rfl
  have e3 : ∀ t, (DetectTarget_MinTemp t).OLDRPG = t.OLDRPG := by
    intro t
    rw [DetectTarget_MinTemp_eq]
    split_ifs <;> rfl
  have e4 : ∀ t, (DetectTarget_MinHumid t).OLDRPG = t.OLDRPG := by
    intro t
    rw [DetectTarget_MinHumid_eq]
    split_ifs <;> rfl
  rw [DetectTarget, e4, e3, e2, e1]

theorem OLDRPG_SelectBound (b : Bool) (s : State) : (SelectBound b s).OLDRPG = s.OLDRPG := by
  rw [SelectBound_eq]
  split_ifs <;> rfl

theorem OLDRPG_CheckAlerts (s : State) : (CheckAlerts s).OLDRPG = s.OLDRPG := by
  have e1 : ∀ t, (CheckAlerts_MinTemp t).OLDRPG = t.OLDRPG := by
    intro t
    rw [CheckAlerts_MinTemp_eq]
  have e2 : ∀ t, (CheckAlerts_MaxTemp t).OLDRPG = t.OLDRPG := by
    intro t
    rw [CheckAlerts_MaxTemp_eq]
  have e3 : ∀ t, (CheckAlerts_MaxHumid t).OLDRPG = t.OLDRPG := by
    intro t
    rw [CheckAlerts_MaxHumid_eq]
  have e4 : ∀ t, (CheckAlerts_MinHumid t).OLDRPG = t.OLDRPG := by
    intro t
    rw [CheckAlerts_MinHumid_eq]
  have e5 : ∀ t, (CheckAlerts_alarm t).OLDRPG = t.OLDRPG := by
    intro t
    unfold CheckAlerts_alarm
    split_ifs <;> rfl
  rw [CheckAlerts, e5, e4, e3, e2, e1]

theorem OLDRPG_ReadTemp (w : Nat) (s : State) : (ReadTemp w s).OLDRPG = s.OLDRPG := by
  rw [ReadTemp_eq]
  by_cases hc : wrap16 (s.TEMP_COUNT + 1) = 100
  · rw [if_pos hc]
  · rw [if_neg hc]

theorem OLDRPG_ReadHumidity (ln : ℚ → ℚ) (w : Nat) (s : State) :
    (ReadHumidity ln w s).OLDRPG = s.OLDRPG := by
  rw [ReadHumidity_eq]
  by_cases hc : wrap16 (s.HUMID_COUNT + 1) = 100
  · rw [if_pos hc, DewPoint_eq]
  · rw [if_neg hc]

theorem editView_tick (ln : ℚ → ℚ) (i : Input) (s : State) :
    editView (tick ln i s) = editView (editTick i s) := by
  unfold editView
  rw [thresholdState_tick]
  unfold tick
  rw [OLDRPG_CheckAlerts, OLDRPG_ReadTemp, OLDRPG_ReadHumidity]

theorem editView_fields (s t : State) (h : editView s = editView t) :
    thresholdState s = thresholdState t ∧ actives s = actives t ∧
    s.MaxTemp = t.MaxTemp ∧ s.MinTemp = t.MinTemp ∧ s.MaxHumid = t.MaxHumid ∧
    s.MinHumid = t.MinHumid ∧ s.MaxTempCpy = t.MaxTempCpy ∧ s.MinTempCpy = t.MinTempCpy ∧
    s.MaxHumidCpy = t.MaxHumidCpy ∧ s.MinHumidCpy = t.MinHumidCpy ∧
    s.TargetChange = t.TargetChange ∧ s.OLDRPG = t.OLDRPG := by
  simp only [editView, thresholdState, actives, copies, Prod.mk.injEq] at h ⊢
  tauto

theorem editView_touch_congr (x y : Int) (s t : State) (h : editView s = editView t) :
    editView (DetectTarget (DetectTouch x y s)) =
      editView (DetectTarget (DetectTouch x y t)) := by
  obtain ⟨hts, ha, h1, h2, h3, h4, h5, h6, h7, h8, -, h10⟩ := editView_fields s t h
  have es := thresholdState_DetectTarget (DetectTouch x y s)
  have et := thresholdState_DetectTarget (DetectTouch x y t)
  have a1 : actives (DetectTouch x y s) = actives t := ha
  have t1 : thresholdState (DetectTouch x y s) = thresholdState (DetectTouch x y t) := hts
  have f1 : (DetectTouch x y s).MaxTemp = (DetectTouch x y t).MaxTemp := h1
  have f2 : (DetectTouch x y s).MinTemp = (DetectTouch x y t).MinTemp := h2
  have f3 : (DetectTouch x y s).MaxHumid = (DetectTouch x y t).MaxHumid := h3
  have f4 : (DetectTouch x y s).MinHumid = (DetectTouch x y t).MinHumid := h4
  have f5 : (DetectTouch x y s).MaxTempCpy = (DetectTouch x y t).MaxTempCpy := h5
  have f6 : (DetectTouch x y s).MinTempCpy = (DetectTouch x y t).MinTempCpy := h6
  have f7 : (DetectTouch x y s).MaxHumidCpy = (DetectTouch x y t).MaxHumidCpy := h7
  have f8 : (DetectTouch x y s).MinHumidCpy = (DetectTouch x y t).MinHumidCpy := h8
  have x1 : (DetectTouch x y s).tsx = (DetectTouch x y t).tsx := rfl
  have y1 : (DetectTouch x y s).tsy = (DetectTouch x y t).tsy := rfl
  rw [a1, t1, f1, f2, f3, f4, f5, f6, f7, f8, x1, y1] at es
  unfold editView
  rw [OLDRPG_DetectTarget, OLDRPG_DetectTarget, es, et]
  exact congrArg _ h10

theorem editView_RPG_congr (P : Nat) (s t : State) (h : editView s = editView t) :
    editView (RPG P s) = editView (RPG P t) ∧ (RPG P s).DELRPG = (RPG P t).DELRPG := by
  obtain ⟨hts, -, -, -, -, -, -, -, -, -, -, h10⟩ := editView_fields s t h
  obtain ⟨os, ds⟩ := RPG_fields P s
  obtain ⟨ot, dt⟩ := RPG_fields P t
  constructor
  · unfold editView
    rw [thresholdState_RPG, thresholdState_RPG, os, ot, hts]
  · rw [ds, dt, h10]

theorem editView_SelectBound_congr (b : Bool) (s t : State) (h : editView s = editView t)
    (hd : s.DELRPG = t.DELRPG) : editView (SelectBound b s) = editView (SelectBound b t) := by
  obtain ⟨-, -, h1, h2, h3, h4, h5, h6, h7, h8, h9, h10⟩ := editView_fields s t h
  obtain ⟨s0, -, s1, s2, s3, s4, s5, s6, s7, s8⟩ := SelectBound_fields b s
  obtain ⟨t0, -, t1, t2, t3, t4, t5, t6, t7, t8⟩ := SelectBound_fields b t
  simp only [editView, thresholdState, actives, copies, OLDRPG_SelectBound, s0, s1, s2, s3,
    s4, s5, s6, s7, s8, t0, t1, t2, t3, t4, t5, t6, t7, t8, h1, h2, h3, h4, h5, h6, h7, h8,
    h9, h10, hd]

theorem editView_editTick_congr (i : Input) (s t : State) (h : editView s = editView t) :
    editView (editTick i s) = editView (editTick i t) := by
  unfold editTick
  obtain ⟨hr, hd⟩ := editView_RPG_congr i.PORTB _ _ (editView_touch_congr i.tsx i.tsy s t h)
  exact editView_SelectBound_congr i.RB0 _ _ hr hd

theorem editView_run (ln : ℚ → ℚ) (is : List Input) (s t : State)
    (h : editView s = editView t) : editView (run ln is s) = editView (runEdit is t) := by
  induction is generalizing s t with
  | nil => exact h
  | cons i is ih =>
    show editView (run ln is (tick ln i s)) = editView (runEdit is (editTick i t))
    refine ih _ _ ?_
    rw [editView_tick]
    exact editView_editTick_congr i s t h

set_option maxRecDepth 100000 in
theorem editView_crossingInputs :
    editView (runEdit crossingInputs (initState 0)) =
      (((-10, 50, 100, 0), (-10, 50, 100, 0), 2), 0) := by
  decide

/-! ## Limits of the decoder and of the threshold editor -/

/-- C21. Dual-bit transitions fool the decoder: for two encoder samples that differ in
both lines (0 and 12, or 4 and 8), `RPG` yields the same non-zero step for the
transition one way as for the transition the other way: +1 for both directions between
0 and 12, -1 for both directions between 4 and 8. -/
theorem dual_bit_transitions_are_ambiguous (P Q : Nat) (s t : State) :
    (s.OLDRPG = Q &&& 0x000C → t.OLDRPG = P &&& 0x000C →
      (P &&& 0x000C) ^^^ (Q &&& 0x000C) = 12 →
      (RPG P s).DELRPG = (RPG Q t).DELRPG ∧ (RPG P s).DELRPG ≠ 0) ∧
    ((s.OLDRPG, P &&& 0x000C) ∈ [(0, 12), (12, 0)] → (RPG P s).DELRPG = 1) ∧
    ((s.OLDRPG, P &&& 0x000C) ∈ [(4, 8), (8, 4)] → (RPG P s).DELRPG = -1) := by
  obtain ⟨-, hs⟩ := RPG_fields P s
  obtain ⟨-, ht⟩ := RPG_fields Q t
  refine ⟨?_, ?_, ?_⟩
  · intro h1 h2 h3
    rw [hs, ht, h1, h2]
    rcases land_twelve_cases P with p | p | p | p <;>
      rcases land_twelve_cases Q with q | q | q | q <;>
      rw [p, q] at h3 ⊢ <;> revert h3 <;> decide
  · intro h
    simp only [List.mem_cons, Prod.mk.injEq, List.mem_singleton, List.not_mem_nil,
      or_false] at h
    rw [hs]
    rcases h with ⟨a, b⟩ | ⟨a, b⟩ <;> rw [a, b] <;> decide
  · intro h
    simp only [List.mem_cons, Prod.mk.injEq, List.mem_singleton, List.not_mem_nil,
      or_false] at h
    rw [hs]
    rcases h with ⟨a, b⟩ | ⟨a, b⟩ <;> rw [a, b] <;> decide

/-- Witness of C21: the samples 0 and 12 give +1 in both directions, the samples 4 and 8
give -1 in both directions. -/
theorem dual_bit_transitions_are_ambiguous_witness :
    ((RPG 12 (initState 0)).DELRPG = (RPG 0 (initState 12)).DELRPG ∧
      (RPG 12 (initState 0)).DELRPG ≠ 0) ∧
    (RPG 12 (initState 0)).DELRPG = 1 ∧ (RPG 0 (initState 12)).DELRPG = 1 ∧
    (RPG 8 (initState 4)).DELRPG = -1 ∧ (RPG 4 (initState 8)).DELRPG = -1 :=
  ⟨(dual_bit_transitions_are_ambiguous 12 0 (initState 0) (initState 12)).1 (by decide)
     (by decide) (by decide),
   (dual_bit_transitions_are_ambiguous 12 0 (initState 0) (initState 12)).2.1 (by decide),
   (dual_bit_transitions_are_ambiguous 0 12 (initState 12) (initState 0)).2.1 (by decide),
   (dual_bit_transitions_are_ambiguous 8 4 (initState 4) (initState 8)).2.2 (by decide),
   (dual_bit_transitions_are_ambiguous 4 8 (initState 8) (initState 4)).2.2 (by decide)⟩

/-- C22. No ordering is enforced between the lower and the upper temperature bound: the
122 loop passes of `crossingInputs` (60 steps down on the upper bound, confirm, touch
on the lower bound, 60 steps up, confirm) lead from the start state to a state with
`MaxTemp = -10` and `MinTemp = 50`, whatever the sensor words do; and in every state
with `MinTemp > MaxTemp`, whatever the temperature reading, one of the two temperature
latches is set by `CheckAlerts` and the alarm output is 1. -/
theorem bounds_can_cross_and_then_alarm (ln : ℚ → ℚ) (s : State) :
    (run ln crossingInputs (initState 0)).MaxTemp = -10 ∧
    (run ln crossingInputs (initState 0)).MinTemp = 50 ∧
    (s.MinTemp > s.MaxTemp →
      ((CheckAlerts s).Alert1Fixed = true ∨ (CheckAlerts s).Alert2Fixed = true) ∧
      (CheckAlerts s).LATD0 = true) := by
  have hv := editView_run ln crossingInputs (initState 0) (initState 0) rfl
  rw [editView_crossingInputs] at hv
  simp only [editView, thresholdState, actives, copies, Prod.mk.injEq] at hv
  refine ⟨hv.1.1.1, hv.1.1.2.1, ?_⟩
  intro h
  obtain ⟨h1, h2, -, -, h5, -⟩ := CheckAlerts_result s
  have hq : (s.MaxTemp : ℚ) < (s.MinTemp : ℚ) := by exact_mod_cast h
  have hor : (CheckAlerts s).Alert1Fixed = true ∨ (CheckAlerts s).Alert2Fixed = true := by
    rw [h1, h2]
    by_cases hT : s.CurrentTemp > (s.MaxTemp : ℚ)
    · left
      simpa using hT
    · right
      have : s.CurrentTemp < (s.MinTemp : ℚ) := lt_of_le_of_lt (not_lt.mp hT) hq
      simpa using this
  refine ⟨hor, ?_⟩
  rw [h5]
  rcases hor with a | a <;> simp [a]

/-- Witness of C22: the state reached by `crossingInputs` has `MinTemp > MaxTemp`, and
`CheckAlerts` sets the alarm output in it. -/
theorem bounds_can_cross_and_then_alarm_witness :
    (run (fun _ => 0) crossingInputs (initState 0)).MinTemp >
      (run (fun _ => 0) crossingInputs (initState 0)).MaxTemp ∧
    (CheckAlerts (run (fun _ => 0) crossingInputs (initState 0))).LATD0 = true :=
  ⟨by
    rw [(bounds_can_cross_and_then_alarm (fun _ => 0) (initState 0)).1,
      (bounds_can_cross_and_then_alarm (fun _ => 0) (initState 0)).2.1]
    decide,
   ((bounds_can_cross_and_then_alarm (fun _ => 0)
      (run (fun _ => 0) crossingInputs (initState 0))).2.2 (by
        rw [(bounds_can_cross_and_then_alarm (fun _ => 0) (initState 0)).1,
          (bounds_can_cross_and_then_alarm (fun _ => 0) (initState 0)).2.1]
        decide)).2⟩

end ThermostatAlert
